import Mathlib

/-!
Shallow embedding of the railtrust input-normalization pipeline and proofs
about its specified behaviour.

Components embedded here, each translated from the corresponding TypeScript
source: the ISO 6346 container-number validator, the format detector, the
location dictionary, the confidence computation of the universal data
extraction, and the record validator.  JavaScript strings are modelled as
Lean strings (lists of characters); JavaScript numbers are modelled as
rationals; optional / possibly-undefined values are modelled as `Option`,
together with the JavaScript truthiness convention where the code branches
on truthiness.
-/

/-- JS-style truthiness of an optional string: `undefined` and the empty
string are falsy, every other string is truthy. -/
def jsTruthyS : Option String → Bool
  | none => false
  | some s => !s.isEmpty

/-- The character class `[A-Z]`. -/
def isUpperLetter (c : Char) : Bool := 65 ≤ c.toNat && c.toNat ≤ 90

/-- The character class `[0-9]`. -/
def isDigitCh (c : Char) : Bool := 48 ≤ c.toNat && c.toNat ≤ 57

/-- `String.prototype.toUpperCase`, restricted to the alphabets the
pipeline manipulates (ASCII letters and the Cyrillic block). -/
def jsUpperChar (c : Char) : Char :=
  if 97 ≤ c.toNat && c.toNat ≤ 122 then Char.ofNat (c.toNat - 32)
  else if 0x430 ≤ c.toNat && c.toNat ≤ 0x44F then Char.ofNat (c.toNat - 32)
  else if c.toNat = 0x451 then Char.ofNat 0x401
  else c

/-- `String.prototype.toLowerCase`, restricted to the same alphabets. -/
def jsLowerChar (c : Char) : Char :=
  if 65 ≤ c.toNat && c.toNat ≤ 90 then Char.ofNat (c.toNat + 32)
  else if 0x410 ≤ c.toNat && c.toNat ≤ 0x42F then Char.ofNat (c.toNat + 32)
  else if c.toNat = 0x401 then Char.ofNat 0x451
  else c

/-- Lowercase a whole string as JS `toLowerCase` does. -/
def jsToLower (s : String) : String := String.mk (s.data.map jsLowerChar)

/-!
## Container validator (containerValidator.ts)
-/

/-- `ISO_6346_CHAR_VALUES` (containerValidator.ts lines 11-16): character
values used by the check-digit computation. -/
def ISO_6346_CHAR_VALUES : List (Char × Nat) :=
  [('A', 10), ('B', 12), ('C', 13), ('D', 14), ('E', 15), ('F', 16), ('G', 17),
   ('H', 18), ('I', 19), ('J', 20), ('K', 21), ('L', 23), ('M', 24), ('N', 25),
   ('O', 26), ('P', 27), ('Q', 28), ('R', 29), ('S', 30), ('T', 31), ('U', 32),
   ('V', 34), ('W', 35), ('X', 36), ('Y', 37), ('Z', 38),
   ('0', 0), ('1', 1), ('2', 2), ('3', 3), ('4', 4), ('5', 5), ('6', 6),
   ('7', 7), ('8', 8), ('9', 9)]

/-- Lookup in the ISO 6346 value table (`undefined` as `none`). -/
def charValue (c : Char) : Option Nat :=
  (ISO_6346_CHAR_VALUES.find? (fun p => p.1 == c)).map (·.2)

/-- `KNOWN_OWNER_CODES` (containerValidator.ts lines 19-47). -/
def KNOWN_OWNER_CODES : List String :=
  ["MSKU", "MSCU", "MAEU", "MRKU", "MRSQ",
   "CMAU", "CGMU", "CMCU",
   "CSQU", "CCLU", "CBHU",
   "HLBU", "HLCU", "HLXU",
   "EITU", "EGSU", "EGHU",
   "OOLU", "OOCU",
   "YMLU", "YMMU",
   "HDMU", "HDCO",
   "TCLU", "TCKU", "TCNU",
   "TEMU", "TGHU", "TGBU",
   "TRHU", "TRLU",
   "GESU", "GATU",
   "FCIU", "FCGU",
   "SEGU", "SEAU",
   "CRXU", "CRSU",
   "APHU", "APMU", "APRU", "APZU",
   "NYKU",
   "KKFU", "KKLU",
   "MOLU",
   "PCIU",
   "WANU", "WFHU",
   "ZIMU", "ZCSU",
   "UACU", "UASU",
   "ECMU",
   "GLDU",
   "SUDU",
   "FANU"]

/-- Structural breakdown carried by a container-validation result. -/
structure ContainerDetails where
  ownerCode : String
  categoryCode : String
  serialNumber : String
  checkDigit : String
  calculatedCheckDigit : String
  isKnownOwner : Bool
  checkDigitValid : Bool
deriving DecidableEq, Repr

/-- `ContainerValidationResult` (containerValidator.ts lines 49-64).  The
source marks `corrections` as optional and leaves it `undefined` when the
list is empty; an empty list models that faithfully because the only
consumer spreads the list into warnings. -/
structure ContainerValidationResult where
  isValid : Bool
  containerNumber : String
  confidence : ℚ
  details : ContainerDetails
  corrections : List String
  error : Option String
deriving DecidableEq, Repr

/-- Cleaning step of `validateContainerNumber` (lines 73-76): uppercase,
strip whitespace, strip every character outside `[A-Z0-9]`.  Removing
whitespace is subsumed by the alphanumeric filter. -/
def cleanContainer (s : List Char) : List Char :=
  (s.map jsUpperChar).filter (fun c => isUpperLetter c || isDigitCh c)

/-- Digit-to-letter repair applied inside the first four characters
(lines 87-91). -/
def fixPrefixChar (c : Char) : Char :=
  if c == '0' then 'O' else if c == '1' then 'I' else if c == '5' then 'S'
  else if c == '8' then 'B' else c

/-- Letter-to-digit repair applied from the fifth character on
(lines 94-99). -/
def fixSuffixChar (c : Char) : Char :=
  if c == 'O' then '0' else if c == 'I' then '1' else if c == 'L' then '1'
  else if c == 'S' then '5' else if c == 'B' then '8' else c

/-- Directional typo repair (lines 82-102): applied only when the cleaned
string has at least four characters. -/
def fixTypos (cs : List Char) : List Char :=
  if 4 ≤ cs.length then (cs.take 4).map fixPrefixChar ++ (cs.drop 4).map fixSuffixChar
  else cs

/-- The regular expression `^([A-Z]{4})(\d{7})$` (line 109). -/
def matches4L7D (cs : List Char) : Bool :=
  cs.length == 11 && (cs.take 4).all isUpperLetter && (cs.drop 4).all isDigitCh

/-- The regular expression `^([A-Z]{4})(\d{6})$` (line 113). -/
def matches4L6D (cs : List Char) : Bool :=
  cs.length == 10 && (cs.take 4).all isUpperLetter && (cs.drop 4).all isDigitCh

/-- The weighted sum of `calculateCheckDigit` (lines 198-204): value of
character at position `i` times `2 ^ i`; `none` when some character is
outside the value table. -/
def weightedSum : List Char → Nat → Option Nat
  | [], _ => some 0
  | c :: rest, i =>
    match charValue c, weightedSum rest (i + 1) with
    | some v, some s => some (v * 2 ^ i + s)
    | _, _ => none

/-- `calculateCheckDigit` (containerValidator.ts lines 195-208). -/
def calculateCheckDigit (cs : List Char) : Char :=
  if cs.length ≠ 10 then '0'
  else
    match weightedSum cs 0 with
    | none => '0'
    | some s =>
      let r := s % 11
      if r == 10 then '0' else Char.ofNat (48 + r)

/-- The failure result of `validateContainerNumber` (lines 120-134). -/
def invalidContainerResult (input : String) : ContainerValidationResult :=
  { isValid := false
    containerNumber := input
    confidence := 0
    details :=
      { ownerCode := "", categoryCode := "", serialNumber := "", checkDigit := ""
        calculatedCheckDigit := "", isKnownOwner := false, checkDigitValid := false }
    corrections := []
    error := some "Неверный формат номера контейнера (должен быть 4 буквы + 6-7 цифр)" }

/-- The success path of `validateContainerNumber` (lines 138-189), entered
once `cleaned` matches four letters plus seven digits. -/
def containerBody (cleaned : List Char) (corrections0 : List String) :
    ContainerValidationResult :=
  let ownerCode := String.mk (cleaned.take 3)
  let categoryCode := String.mk ((cleaned.drop 3).take 1)
  let serialNumber := String.mk ((cleaned.drop 4).take 6)
  let checkDigit := String.mk ((cleaned.drop 10).take 1)
  let corrections1 :=
    if categoryCode ∈ (["U", "J", "Z"] : List String) then corrections0
    else corrections0 ++ ["Необычный код категории: " ++ categoryCode ++ " (обычно U, J или Z)"]
  let fullOwnerCode := ownerCode ++ categoryCode
  let isKnownOwner := KNOWN_OWNER_CODES.contains fullOwnerCode
  let calculated := String.mk [calculateCheckDigit (cleaned.take 10)]
  let checkDigitValid := checkDigit == calculated
  let corrections2 :=
    if checkDigitValid then corrections1
    else corrections1 ++
      ["Контрольная цифра " ++ checkDigit ++ " не совпадает с расчётной " ++ calculated]
  let confidence : ℚ :=
    0.85 + (if checkDigitValid then 0.10 else 0) + (if isKnownOwner then 0.05 else 0)
      + (if corrections2 = [] then 0.02 else 0)
  { isValid := true
    containerNumber := String.mk cleaned
    confidence := min confidence 1
    details :=
      { ownerCode := fullOwnerCode, categoryCode := categoryCode
        serialNumber := serialNumber, checkDigit := checkDigit
        calculatedCheckDigit := calculated, isKnownOwner := isKnownOwner
        checkDigitValid := checkDigitValid }
    corrections := corrections2
    error := none }

/-- `validateContainerNumber` (containerValidator.ts lines 69-190). -/
def validateContainerNumber (input : String) : ContainerValidationResult :=
  let originalCleaned := cleanContainer input.data
  let cleaned := fixTypos originalCleaned
  let corrections0 :=
    if cleaned ≠ originalCleaned then
      ["Исправлены опечатки: " ++ String.mk originalCleaned ++ " → " ++ String.mk cleaned]
    else []
  if matches4L7D cleaned then containerBody cleaned corrections0
  else if matches4L6D cleaned then
    let cd := calculateCheckDigit cleaned
    containerBody (cleaned ++ [cd])
      (corrections0 ++ ["Добавлена контрольная цифра: " ++ String.mk [cd]])
  else invalidContainerResult input

/-!
## Character-level lemmas for the container validator
-/

theorem charToNatInj {c d : Char} (h : c.toNat = d.toNat) : c = d := by
  apply Char.ext
  exact UInt32.ext h

theorem validChar_bounds {c : Char} (h : (isUpperLetter c || isDigitCh c) = true) :
    (65 ≤ c.toNat ∧ c.toNat ≤ 90) ∨ (48 ≤ c.toNat ∧ c.toNat ≤ 57) := by
  simp only [isUpperLetter, isDigitCh, Bool.or_eq_true, Bool.and_eq_true,
    decide_eq_true_eq] at h
  tauto

theorem jsUpperChar_id {c : Char} (h : (isUpperLetter c || isDigitCh c) = true) :
    jsUpperChar c = c := by
  have hb := validChar_bounds h
  unfold jsUpperChar
  rw [if_neg, if_neg, if_neg] <;>
    (try simp only [Bool.and_eq_true, decide_eq_true_eq, not_and]) <;> omega

theorem fixPrefixChar_id {c : Char} (h : isUpperLetter c = true) : fixPrefixChar c = c := by
  rcases eq_or_ne c '0' with rfl | h0
  · exact absurd h (by decide)
  rcases eq_or_ne c '1' with rfl | h1
  · exact absurd h (by decide)
  rcases eq_or_ne c '5' with rfl | h5
  · exact absurd h (by decide)
  rcases eq_or_ne c '8' with rfl | h8
  · exact absurd h (by decide)
  simp [fixPrefixChar, beq_iff_eq, h0, h1, h5, h8]

theorem fixSuffixChar_id {c : Char} (h : isDigitCh c = true) : fixSuffixChar c = c := by
  rcases eq_or_ne c 'O' with rfl | hO
  · exact absurd h (by decide)
  rcases eq_or_ne c 'I' with rfl | hI
  · exact absurd h (by decide)
  rcases eq_or_ne c 'L' with rfl | hL
  · exact absurd h (by decide)
  rcases eq_or_ne c 'S' with rfl | hS
  · exact absurd h (by decide)
  rcases eq_or_ne c 'B' with rfl | hB
  · exact absurd h (by decide)
  simp [fixSuffixChar, beq_iff_eq, hO, hI, hL, hS, hB]

theorem cleanContainer_id {cs : List Char}
    (h : ∀ c ∈ cs, (isUpperLetter c || isDigitCh c) = true) :
    cleanContainer cs = cs := by
  unfold cleanContainer
  rw [List.map_congr_left (fun c hc => jsUpperChar_id (h c hc))]
  simp only [List.map_id']
  exact List.filter_eq_self.mpr h

theorem matches4L7D_valid {cs : List Char} (h : matches4L7D cs = true) :
    ∀ c ∈ cs, (isUpperLetter c || isDigitCh c) = true := by
  simp only [matches4L7D, Bool.and_eq_true, List.all_eq_true, beq_iff_eq] at h
  intro c hc
  rw [← List.take_append_drop 4 cs] at hc
  rcases List.mem_append.mp hc with h1 | h2
  · simp [h.1.2 c h1]
  · simp [h.2 c h2]

theorem matches4L6D_valid {cs : List Char} (h : matches4L6D cs = true) :
    ∀ c ∈ cs, (isUpperLetter c || isDigitCh c) = true := by
  simp only [matches4L6D, Bool.and_eq_true, List.all_eq_true, beq_iff_eq] at h
  intro c hc
  rw [← List.take_append_drop 4 cs] at hc
  rcases List.mem_append.mp hc with h1 | h2
  · simp [h.1.2 c h1]
  · simp [h.2 c h2]

theorem fixTypos_id_of_L7D {cs : List Char} (h : matches4L7D cs = true) :
    fixTypos cs = cs := by
  have hlen : cs.length = 11 := by
    simp only [matches4L7D, Bool.and_eq_true, beq_iff_eq] at h
    exact h.1.1
  simp only [matches4L7D, Bool.and_eq_true, List.all_eq_true, beq_iff_eq] at h
  unfold fixTypos
  rw [if_pos (by omega)]
  rw [List.map_congr_left (fun c hc => fixPrefixChar_id (h.1.2 c hc)),
    List.map_congr_left (fun c hc => fixSuffixChar_id (h.2 c hc))]
  simp only [List.map_id']
  exact List.take_append_drop 4 cs

/-!
## Spec-side rendering of the ISO 6346 check-digit scheme

These definitions follow the specification text word for word, to be
compared with the implementation translated above: letters map to the
sequence 10, 12, 13, ... obtained by skipping the multiples of 11, digits
map to themselves, character values are weighted by powers of two and
summed, and the digit is the sum modulo 11 with remainder 10 mapped to 0.
-/

/-- The value sequence assigned to letters by the spec: starting from 10
and skipping every multiple of 11. -/
def specLetterVals : List Nat :=
  ((List.range 40).map (fun n => n + 10)).filter (fun v => !(v % 11 == 0))

/-- Spec-side character value: digits map to themselves, letter `k` (with
A = 0) maps to the `k`-th entry of the skipping sequence. -/
def specCharValue (c : Char) : Nat :=
  if isDigitCh c then c.toNat - 48
  else specLetterVals.getD (c.toNat - 65) 0

/-- Spec-side weighted sum: value of position `i` times `2 ^ i`. -/
def specWeightedSum : List Char → Nat → Nat
  | [], _ => 0
  | c :: r, i => specCharValue c * 2 ^ i + specWeightedSum r (i + 1)

/-- Spec-side check digit: weighted sum modulo 11, remainder 10 mapped
to the character 0. -/
def specCheckDigit (cs : List Char) : Char :=
  let r := specWeightedSum cs 0 % 11
  if r == 10 then '0' else Char.ofNat (48 + r)

theorem char_beq_toNat (c d : Char) : (c == d) = (c.toNat == d.toNat) := by
  cases hb : (c.toNat == d.toNat) with
  | true =>
    have := charToNatInj (beq_iff_eq.mp hb)
    simp [this]
  | false =>
    have hne : c ≠ d := by
      intro he
      rw [he] at hb
      simp at hb
    simp [hne]

theorem charValue_eq_spec {c : Char} (h : (isUpperLetter c || isDigitCh c) = true) :
    charValue c = some (specCharValue c) := by
  have hb := validChar_bounds h
  unfold charValue specCharValue isDigitCh
  simp only [char_beq_toNat]
  generalize hgen : c.toNat = n at hb ⊢
  rcases hb with ⟨h1, h2⟩ | ⟨h1, h2⟩ <;> interval_cases n <;> decide

theorem weightedSum_eq_spec (cs : List Char) (i : Nat)
    (h : ∀ c ∈ cs, (isUpperLetter c || isDigitCh c) = true) :
    weightedSum cs i = some (specWeightedSum cs i) := by
  induction cs generalizing i with
  | nil => rfl
  | cons c rest ih =>
    have hc := charValue_eq_spec (h c (List.mem_cons_self c rest))
    have hrest := ih (i + 1) (fun d hd => h d (List.mem_cons_of_mem c hd))
    unfold weightedSum specWeightedSum
    rw [hc, hrest]

/-!
## Claims C1, C2, C3
-/

/-- C1: for every input string, `validateContainerNumber` returns
`isValid = true` exactly when the cleaned, typo-corrected string matches
four letters plus seven digits or four letters plus six digits (in the
latter case the computed check digit is appended before validation
succeeds); check-digit correctness never enters the validity decision,
and when no shape matches the result has `isValid = false`, confidence 0
and a descriptive error. -/
theorem C1_validity_iff_shape (s : String) :
    ((validateContainerNumber s).isValid = true ↔
      (matches4L7D (fixTypos (cleanContainer s.data)) = true ∨
       matches4L6D (fixTypos (cleanContainer s.data)) = true)) ∧
    (matches4L7D (fixTypos (cleanContainer s.data)) = false →
     matches4L6D (fixTypos (cleanContainer s.data)) = false →
      (validateContainerNumber s).isValid = false ∧
      (validateContainerNumber s).confidence = 0 ∧
      (validateContainerNumber s).error.isSome = true) := by
  unfold validateContainerNumber
  cases h7 : matches4L7D (fixTypos (cleanContainer s.data)) with
  | true => simp [h7, containerBody]
  | false =>
    cases h6 : matches4L6D (fixTypos (cleanContainer s.data)) with
    | true => simp [h7, h6, containerBody]
    | false => simp [h7, h6, invalidContainerResult]

theorem C1_validity_iff_shape_witness :
    (validateContainerNumber "??").isValid = false ∧
    (validateContainerNumber "??").confidence = 0 ∧
    (validateContainerNumber "??").error.isSome = true :=
  (C1_validity_iff_shape "??").2 (by decide) (by decide)

/-- C2: an identifier already in canonical shape (four uppercase letters
plus seven digits) whose final digit equals the check digit computed from
its first ten characters is validated with confidence at least 0.95 and
`details.checkDigitValid = true`. -/
theorem C2_canonical_checkdigit_confidence (s : String)
    (h7 : matches4L7D s.data = true)
    (hcd : s.data.drop 10 = [calculateCheckDigit (s.data.take 10)]) :
    0.95 ≤ (validateContainerNumber s).confidence ∧
    (validateContainerNumber s).details.checkDigitValid = true := by
  have hvalid := matches4L7D_valid h7
  have hclean : cleanContainer s.data = s.data := cleanContainer_id hvalid
  have hfix : fixTypos s.data = s.data := fixTypos_id_of_L7D h7
  unfold validateContainerNumber
  simp only [hclean, hfix, ne_eq, not_true_eq_false, if_false, ite_self]
  rw [if_pos h7]
  unfold containerBody
  have hck : String.mk ((s.data.drop 10).take 1) =
      String.mk [calculateCheckDigit (s.data.take 10)] := by rw [hcd]; rfl
  simp only [hck, beq_self_eq_true]
  constructor
  · simp only [ge_iff_le, le_min_iff]
    constructor
    · split_ifs <;> norm_num
    · norm_num
  · trivial

theorem C2_canonical_checkdigit_confidence_witness :
    0.95 ≤ (validateContainerNumber "MSKU1234565").confidence ∧
    (validateContainerNumber "MSKU1234565").details.checkDigitValid = true :=
  C2_canonical_checkdigit_confidence "MSKU1234565" (by decide) (by decide)

/-- C3: on a ten-character alphanumeric code `calculateCheckDigit` returns
the weighted sum of the spec's character values (digits map to themselves,
letters to the sequence 10, 12, 13, ... skipping multiples of 11) with
weight `2 ^ i`, reduced modulo 11 and with remainder 10 mapped to the
character 0; and when the cleaned, typo-corrected input matches four
letters plus six digits, `validateContainerNumber` appends exactly this
computed check digit to form the returned identifier. -/
theorem C3_checkdigit_formula_and_append :
    (∀ cs : List Char, cs.length = 10 →
      (∀ c ∈ cs, (isUpperLetter c || isDigitCh c) = true) →
      calculateCheckDigit cs = specCheckDigit cs) ∧
    (∀ s : String,
      matches4L7D (fixTypos (cleanContainer s.data)) = false →
      matches4L6D (fixTypos (cleanContainer s.data)) = true →
      (validateContainerNumber s).containerNumber =
        String.mk (fixTypos (cleanContainer s.data) ++
          [calculateCheckDigit (fixTypos (cleanContainer s.data))])) := by
  constructor
  · intro cs hlen h
    unfold calculateCheckDigit specCheckDigit
    rw [if_neg (by omega), weightedSum_eq_spec cs 0 h]
  · intro s h7 h6
    unfold validateContainerNumber
    rw [if_neg (by simp [h7]), if_pos h6]
    rfl

theorem C3_checkdigit_formula_and_append_witness :
    calculateCheckDigit "MSKU123456".data = specCheckDigit "MSKU123456".data ∧
    (validateContainerNumber "MSKU123456").containerNumber =
      String.mk (fixTypos (cleanContainer "MSKU123456".data) ++
        [calculateCheckDigit (fixTypos (cleanContainer "MSKU123456".data))]) :=
  ⟨C3_checkdigit_formula_and_append.1 "MSKU123456".data (by decide) (by decide),
   C3_checkdigit_formula_and_append.2 "MSKU123456" (by decide) (by decide)⟩

/-!
## Format detector (formatDetector.ts)

JavaScript values reaching the detector are modelled by `JSValue`.  The
single behaviour the host environment supplies — `JSON.parse` on strings
that start with a brace or bracket — is passed in as a function parameter,
so every theorem below holds for any parse outcome.  The `details`
sub-record of `DetectedFormat` (keyword/regex presence booleans and a
language guess) is consumed by no property in this development and is
omitted from the embedding.
-/

/-- Model of the JavaScript values the pipeline manipulates. -/
inductive JSValue where
  | str (s : String)
  | num (q : ℚ)
  | boolean (b : Bool)
  | nullv
  | obj (fields : List (String × JSValue))
  | arr (elems : List JSValue)

/-- `FormatType` (formatDetector.ts lines 19-27). -/
inductive FormatType where
  | PLAIN_TEXT
  | JSON_OBJECT
  | JSON_ARRAY
  | CSV_TEXT
  | TABLE_ROW
  | TABLE_ROWS
  | MIXED
  | UNKNOWN
deriving DecidableEq, Repr

/-- `DetectedFormat` without its unconsumed `details` sub-record. -/
structure DetectedFormat where
  type : FormatType
  confidence : ℚ
deriving DecidableEq, Repr

/-- The input `hint` vocabulary (inputProcessor.ts line 29). -/
inductive Hint where
  | text
  | json
  | csv
  | table
  | api
deriving DecidableEq, Repr

/-- JS whitespace characters relevant to `trim` and `\s`. -/
def isJsWhitespace (c : Char) : Bool :=
  c == ' ' || c == '\t' || c == '\n' || c == '\r' ||
    c.toNat == 11 || c.toNat == 12

/-- `String.prototype.trim`. -/
def jsTrim (s : String) : String :=
  String.mk (((s.data.dropWhile isJsWhitespace).reverse.dropWhile isJsWhitespace).reverse)

/-- `hasTableFields` (formatDetector.ts lines 211-224): at least two of the
table-like field names occur among the lower-cased keys.  The field list
deliberately contains entries that coincide after lower-casing; the filter
counts them separately, as the source does. -/
def hasTableFields (fields : List (String × JSValue)) : Bool :=
  let tableFields := ["containerNumber", "container_number", "containernumber",
    "state", "status", "statusCode", "status_code",
    "from", "to", "origin", "destination",
    "eta", "ETA", "arrival", "arrivalDate",
    "location", "currentLocation", "current_location"]
  let keys := fields.map (fun p => jsToLower p.1)
  decide (2 ≤ (tableFields.filter (fun f => keys.contains (jsToLower f))).length)

/-- Count the occurrences of one character in a string. -/
def countCh (c : Char) (s : String) : Nat := (s.data.filter (fun d => d == c)).length

/-- `looksLikeCSV` (formatDetector.ts lines 186-206). -/
def looksLikeCSV (content : String) : Bool :=
  let lines := ((content.data.splitOnP (fun c => c == '\n')).map String.mk).filter
    (fun l => !(jsTrim l).isEmpty)
  match lines with
  | [] => false
  | [_] => false
  | first :: rest =>
    [';', ',', '\t'].any (fun delim =>
      let firstCount := countCh delim first
      decide (2 ≤ firstCount) &&
        (rest.take 4).all (fun line =>
          decide ((countCh delim line : Int) - firstCount ≤ 1 ∧
            (firstCount : Int) - countCh delim line ≤ 1)))

/-- `unknownFormat` (formatDetector.ts lines 306-319). -/
def unknownFormat : DetectedFormat := { type := .UNKNOWN, confidence := 0 }

/-- `detectArrayFormat` (formatDetector.ts lines 103-128).  A nested array
as first element passes the `typeof` object test but exposes no table-like
keys; `null`, numbers and booleans fall through to the final branch. -/
def detectArrayFormat (elems : List JSValue) : DetectedFormat :=
  match elems with
  | [] => unknownFormat
  | first :: _ =>
    match first with
    | .obj fields =>
      if hasTableFields fields then { type := .TABLE_ROWS, confidence := 0.9 }
      else { type := .JSON_ARRAY, confidence := 0.8 }
    | .arr _ => { type := .JSON_ARRAY, confidence := 0.8 }
    | .str _ => { type := .CSV_TEXT, confidence := 0.6 }
    | _ => { type := .JSON_ARRAY, confidence := 0.5 }

/-- Property lookup on a modelled object. -/
def jsGet (fields : List (String × JSValue)) (key : String) : Option JSValue :=
  (fields.find? (fun p => p.1 == key)).map (·.2)

/-- `detectObjectFormat` (formatDetector.ts lines 133-155). -/
def detectObjectFormat (fields : List (String × JSValue)) : DetectedFormat :=
  if hasTableFields fields then { type := .TABLE_ROW, confidence := 0.9 }
  else
    match jsGet fields "rows" with
    | some (.arr rs) => detectArrayFormat rs
    | _ =>
      match jsGet fields "data" with
      | some (.arr ds) => detectArrayFormat ds
      | _ =>
        match jsGet fields "body" with
        | some (.str _) => { type := .MIXED, confidence := 0.8 }
        | _ => { type := .JSON_OBJECT, confidence := 0.7 }

/-- `detectStringFormat` (formatDetector.ts lines 75-98).  `jsonParse`
models `JSON.parse`; `none` models a parse exception, after which the
source falls through to the CSV test.  A successfully parsed scalar has no
own keys, so the source's `detectObjectFormat` treats it as an empty
object. -/
def detectStringFormat (jsonParse : String → Option JSValue) (content : String) :
    DetectedFormat :=
  let trimmed := jsTrim content
  let startsJson :=
    match trimmed.data with
    | c :: _ => c == '{' || c == '['
    | [] => false
  match (if startsJson then jsonParse trimmed else none) with
  | some (.arr xs) => detectArrayFormat xs
  | some (.obj fs) => detectObjectFormat fs
  | some _ => detectObjectFormat []
  | none =>
    if looksLikeCSV trimmed then { type := .CSV_TEXT, confidence := 0.8 }
    else { type := .PLAIN_TEXT, confidence := 0.9 }

/-- The hint-free decision chain of `detect` (formatDetector.ts lines
60-69): string, then plain object, then unknown; `null`, numbers and
booleans fail both `typeof` tests. -/
def detectAuto (jsonParse : String → Option JSValue) (content : JSValue) : DetectedFormat :=
  match content with
  | .str s => detectStringFormat jsonParse s
  | .obj fs => detectObjectFormat fs
  | .arr elems => detectArrayFormat elems
  | _ => unknownFormat

/-- `detectWithHint` (formatDetector.ts lines 160-181); the `api` hint hits
the `default` branch, which re-enters `detect` without a hint. -/
def detectWithHint (jsonParse : String → Option JSValue) (content : JSValue) (h : Hint) :
    DetectedFormat :=
  match h with
  | .text => { type := .PLAIN_TEXT, confidence := 0.95 }
  | .json =>
    match content with
    | .arr _ => { type := .JSON_ARRAY, confidence := 0.95 }
    | _ => { type := .JSON_OBJECT, confidence := 0.95 }
  | .csv => { type := .CSV_TEXT, confidence := 0.95 }
  | .table =>
    match content with
    | .arr _ => { type := .TABLE_ROWS, confidence := 0.95 }
    | _ => { type := .TABLE_ROW, confidence := 0.95 }
  | .api => detectAuto jsonParse content

/-- `FormatDetector.detect` (formatDetector.ts lines 47-70): the array test
runs before the hint test. -/
def detect (jsonParse : String → Option JSValue) (content : JSValue) (hint : Option Hint) :
    DetectedFormat :=
  match content with
  | .arr elems => detectArrayFormat elems
  | _ =>
    match hint with
    | some h => detectWithHint jsonParse content h
    | none => detectAuto jsonParse content

/-!
## Claim C9
-/

/-- C9 counterexample: a `RawInput` whose content is an array of one
table-like row and whose hint is `text` is classified by the automatic
array branch as TABLE_ROWS with confidence 0.9 — the hint does not
short-circuit the decision and the hinted format PLAIN_TEXT at confidence
0.95 is not returned, because `detect` tests `Array.isArray` before it
tests the hint. -/
theorem C9_hint_bypassed_on_arrays :
    (detect (fun _ => none)
        (.arr [.obj [("status", .str "x"), ("eta", .str "y")]]) (some .text)).type =
      FormatType.TABLE_ROWS ∧
    (detect (fun _ => none)
        (.arr [.obj [("status", .str "x"), ("eta", .str "y")]]) (some .text)).confidence =
      0.9 ∧
    ¬((detect (fun _ => none)
        (.arr [.obj [("status", .str "x"), ("eta", .str "y")]]) (some .text)).type =
        FormatType.PLAIN_TEXT ∧
      (detect (fun _ => none)
        (.arr [.obj [("status", .str "x"), ("eta", .str "y")]]) (some .text)).confidence =
        0.95) := by
  refine ⟨rfl, rfl, ?_⟩
  rintro ⟨h, -⟩
  exact absurd h (by decide)

/-- C9 amended: for every input whose content is not an array and whose
hint is one of text, json, csv or table, `detect` bypasses the automatic
procedure and returns the hint-implied format (text to PLAIN_TEXT, json to
JSON_OBJECT, csv to CSV_TEXT, table to TABLE_ROW) with confidence 0.95;
array content is always classified by the automatic array branch, and the
api hint falls back to automatic detection. -/
theorem C9_hint_shortcircuit_nonarray (jsonParse : String → Option JSValue)
    (content : JSValue) (h : Hint)
    (harr : ∀ elems, content ≠ .arr elems) (hapi : h ≠ .api) :
    (detect jsonParse content (some h)).confidence = 0.95 ∧
    (detect jsonParse content (some h)).type =
      (match h with
       | .text => FormatType.PLAIN_TEXT
       | .json => FormatType.JSON_OBJECT
       | .csv => FormatType.CSV_TEXT
       | .table => FormatType.TABLE_ROW
       | .api => FormatType.UNKNOWN) := by
  cases content with
  | arr elems => exact absurd rfl (harr elems)
  | str s => cases h <;> simp [detect, detectWithHint] at hapi ⊢
  | num q => cases h <;> simp [detect, detectWithHint] at hapi ⊢
  | boolean b => cases h <;> simp [detect, detectWithHint] at hapi ⊢
  | nullv => cases h <;> simp [detect, detectWithHint] at hapi ⊢
  | obj fs => cases h <;> simp [detect, detectWithHint] at hapi ⊢

theorem C9_hint_shortcircuit_nonarray_witness :
    (detect (fun _ => none) (.obj []) (some .csv)).confidence = 0.95 ∧
    (detect (fun _ => none) (.obj []) (some .csv)).type = FormatType.CSV_TEXT :=
  C9_hint_shortcircuit_nonarray (fun _ => none) (.obj []) .csv
    (fun _ hne => by cases hne) (by decide)

/-!
## Location dictionary (locationDictionary.ts)
-/

/-- `KnownLocation` (locationDictionary.ts lines 12-18); the
`LocationType` union is modelled as its string value. -/
structure KnownLocation where
  name : String
  type : String
  aliases : List String
  region : Option String
  country : String
deriving DecidableEq, Repr

/-- `RUSSIAN_STATIONS` (locationDictionary.ts lines 21-44). -/
def RUSSIAN_STATIONS : List KnownLocation :=
  [{ name := "Иня-Восточная", type := "STATION", aliases := ["иня восточная", "иня-вост", "иня вост"], region := some "Новосибирская обл.", country := "RU" },
   { name := "Гончарово", type := "STATION", aliases := ["гончарово", "goncharovo"], region := some "Забайкальский край", country := "RU" },
   { name := "Забайкальск", type := "STATION", aliases := ["забайкальск", "zabaikalsk"], region := some "Забайкальский край", country := "RU" },
   { name := "Наушки", type := "STATION", aliases := ["наушки", "naushki"], region := some "Бурятия", country := "RU" },
   { name := "Новосибирск", type := "STATION", aliases := ["новосибирск", "новосиб", "novosibirsk", "нск"], region := some "Новосибирская обл.", country := "RU" },
   { name := "Екатеринбург", type := "STATION", aliases := ["екатеринбург", "екб", "ekaterinburg", "yekaterinburg"], region := some "Свердловская обл.", country := "RU" },
   { name := "Красноярск", type := "STATION", aliases := ["красноярск", "krasnoyarsk"], region := some "Красноярский край", country := "RU" },
   { name := "Иркутск", type := "STATION", aliases := ["иркутск", "irkutsk"], region := some "Иркутская обл.", country := "RU" },
   { name := "Хабаровск", type := "STATION", aliases := ["хабаровск", "khabarovsk"], region := some "Хабаровский край", country := "RU" },
   { name := "Чита", type := "STATION", aliases := ["чита", "chita"], region := some "Забайкальский край", country := "RU" },
   { name := "Улан-Удэ", type := "STATION", aliases := ["улан-удэ", "улан удэ", "ulan-ude"], region := some "Бурятия", country := "RU" },
   { name := "Омск", type := "STATION", aliases := ["омск", "omsk"], region := some "Омская обл.", country := "RU" },
   { name := "Тюмень", type := "STATION", aliases := ["тюмень", "tyumen"], region := some "Тюменская обл.", country := "RU" },
   { name := "Пермь", type := "STATION", aliases := ["пермь", "perm"], region := some "Пермский край", country := "RU" },
   { name := "Казань", type := "STATION", aliases := ["казань", "kazan"], region := some "Татарстан", country := "RU" },
   { name := "Нижний Новгород", type := "STATION", aliases := ["нижний новгород", "нн", "nizhniy novgorod"], region := some "Нижегородская обл.", country := "RU" },
   { name := "Москва", type := "STATION", aliases := ["москва", "мск", "moscow"], region := some "Москва", country := "RU" },
   { name := "Орехово-Зуево", type := "STATION", aliases := ["орехово-зуево", "орехово зуево", "orekhovo-zuevo"], region := some "Московская обл.", country := "RU" },
   { name := "Санкт-Петербург", type := "STATION", aliases := ["санкт-петербург", "спб", "питер", "saint-petersburg"], region := some "Санкт-Петербург", country := "RU" },
   { name := "Ворсино", type := "STATION", aliases := ["ворсино", "vorsino"], region := some "Калужская обл.", country := "RU" },
   { name := "Силикатная", type := "STATION", aliases := ["силикатная", "silikatnaya"], region := some "Московская обл.", country := "RU" },
   { name := "Электроугли", type := "STATION", aliases := ["электроугли", "elektrougli"], region := some "Московская обл.", country := "RU" }]

/-- `PORTS` (locationDictionary.ts lines 47-69). -/
def PORTS : List KnownLocation :=
  [{ name := "Владивосток", type := "PORT", aliases := ["владивосток", "vladivostok", "влад"], region := some "Приморский край", country := "RU" },
   { name := "Восточный", type := "PORT", aliases := ["восточный", "vostochny", "порт восточный"], region := some "Приморский край", country := "RU" },
   { name := "Находка", type := "PORT", aliases := ["находка", "nakhodka"], region := some "Приморский край", country := "RU" },
   { name := "Новороссийск", type := "PORT", aliases := ["новороссийск", "novorossiysk", "нврс"], region := some "Краснодарский край", country := "RU" },
   { name := "Санкт-Петербург", type := "PORT", aliases := ["большой порт спб", "порт спб"], region := some "Санкт-Петербург", country := "RU" },
   { name := "Шанхай", type := "PORT", aliases := ["шанхай", "shanghai", "sha"], region := some "", country := "CN" },
   { name := "Циндао", type := "PORT", aliases := ["циндао", "qingdao", "tsingtao"], region := some "", country := "CN" },
   { name := "Нинбо", type := "PORT", aliases := ["нинбо", "ningbo"], region := some "", country := "CN" },
   { name := "Далянь", type := "PORT", aliases := ["далянь", "dalian", "дальний"], region := some "", country := "CN" },
   { name := "Тяньцзинь", type := "PORT", aliases := ["тяньцзинь", "tianjin"], region := some "", country := "CN" },
   { name := "Гуанчжоу", type := "PORT", aliases := ["гуанчжоу", "guangzhou", "кантон"], region := some "", country := "CN" },
   { name := "Шэньчжэнь", type := "PORT", aliases := ["шэньчжэнь", "shenzhen"], region := some "", country := "CN" },
   { name := "Сямынь", type := "PORT", aliases := ["сямынь", "xiamen", "амой"], region := some "", country := "CN" },
   { name := "Пусан", type := "PORT", aliases := ["пусан", "busan", "pusan"], region := some "", country := "KR" },
   { name := "Инчхон", type := "PORT", aliases := ["инчхон", "incheon"], region := some "", country := "KR" },
   { name := "Сингапур", type := "PORT", aliases := ["сингапур", "singapore"], region := some "", country := "SG" },
   { name := "Гонконг", type := "PORT", aliases := ["гонконг", "hong kong", "hongkong"], region := some "", country := "HK" },
   { name := "Токио", type := "PORT", aliases := ["токио", "tokyo"], region := some "", country := "JP" },
   { name := "Иокогама", type := "PORT", aliases := ["иокогама", "yokohama"], region := some "", country := "JP" },
   { name := "Роттердам", type := "PORT", aliases := ["роттердам", "rotterdam"], region := some "", country := "NL" },
   { name := "Гамбург", type := "PORT", aliases := ["гамбург", "hamburg"], region := some "", country := "DE" }]

/-- `WAREHOUSES` (locationDictionary.ts lines 72-76). -/
def WAREHOUSES : List KnownLocation :=
  [{ name := "СВХ Шереметьево", type := "WAREHOUSE", aliases := ["свх шереметьево", "шереметьево свх"], region := some "Московская обл.", country := "RU" },
   { name := "СВХ Домодедово", type := "WAREHOUSE", aliases := ["свх домодедово", "домодедово свх"], region := some "Московская обл.", country := "RU" },
   { name := "Терминал Ворсино", type := "WAREHOUSE", aliases := ["терминал ворсино", "ворсино терминал"], region := some "Калужская обл.", country := "RU" }]

/-- `ALL_LOCATIONS` (locationDictionary.ts lines 79-83). -/
def ALL_LOCATIONS : List KnownLocation := RUSSIAN_STATIONS ++ PORTS ++ WAREHOUSES

/-- `Map.prototype.set`: overwriting an existing key keeps its original
insertion position, a fresh key is appended. -/
def mapSet (m : List (String × KnownLocation)) (k : String) (v : KnownLocation) :
    List (String × KnownLocation) :=
  if m.any (fun p => p.1 == k) then m.map (fun p => if p.1 == k then (k, v) else p)
  else m ++ [(k, v)]

/-- `locationIndex` (locationDictionary.ts lines 86-93): every canonical
name and alias, lower-cased, in insertion order. -/
def locationIndex : List (String × KnownLocation) :=
  ALL_LOCATIONS.foldl
    (fun m loc =>
      loc.aliases.foldl (fun m2 a => mapSet m2 (jsToLower a) loc)
        (mapSet m (jsToLower loc.name) loc))
    []

/-- Substring containment (`String.prototype.includes`). -/
def containsSub (needle : List Char) : List Char → Bool
  | [] => needle.isEmpty
  | c :: t => needle.isPrefixOf (c :: t) || containsSub needle t

/-- `LocationMatchResult` (locationDictionary.ts lines 95-100). -/
structure LocationMatchResult where
  found : Bool
  location : Option KnownLocation
  matchedText : String
  confidence : ℚ
deriving DecidableEq, Repr

/-- The first loop of `findLocation` (lines 109-118): the first index entry
whose key occurs inside the lower-cased text. -/
def indexScan (lowerText : String) : Option (String × KnownLocation) :=
  locationIndex.find? (fun kv => containsSub kv.1.data lowerText.data)

/-- Exact lookup (`Map.prototype.get`). -/
def indexGet (key : String) : Option KnownLocation :=
  (locationIndex.find? (fun kv => kv.1 == key)).map (·.2)

/-- The character class `[А-Яа-яёЁA-Za-z\-]` used by the capture groups of
`findLocation`. -/
def isNameChar (c : Char) : Bool :=
  (0x410 ≤ c.toNat && c.toNat ≤ 0x44F) || c.toNat == 0x401 || c.toNat == 0x451 ||
    (65 ≤ c.toNat && c.toNat ≤ 90) || (97 ≤ c.toNat && c.toNat ≤ 122) || c == '-'

/-- Case-insensitive keyword match: `kw` is given lower-cased; on success
returns the consumed characters and the remainder. -/
def matchKeywordCI (kw : List Char) (cs : List Char) : Option (List Char × List Char) :=
  match kw, cs with
  | [], rest => some ([], rest)
  | _ :: _, [] => none
  | k :: ks, c :: cr =>
    if jsLowerChar c == k then
      (matchKeywordCI ks cr).map (fun p => (c :: p.1, p.2))
    else none

/-- After a keyword: `\s+` followed by a non-empty run of name characters,
as in the capture groups of `findLocation`; returns the consumed
characters and the captured group. -/
def matchSpaceCapture (cs : List Char) : Option (List Char × List Char) :=
  let ws := cs.takeWhile isJsWhitespace
  let rest := cs.drop ws.length
  let captured := rest.takeWhile isNameChar
  if ws.isEmpty || captured.isEmpty then none
  else some (ws ++ captured, captured)

/-- One attempt of `/(?:ст\.|станци[яи])\s+([А-Яа-яёЁA-Za-z\-]+)/i` at a
fixed position: keyword alternation in source order, then whitespace and
the capture. -/
def stationPatternAt (cs : List Char) : Option (List Char × List Char) :=
  let kwHit :=
    match matchKeywordCI "ст.".data cs with
    | some p => some p
    | none =>
      match matchKeywordCI "станци".data cs with
      | some (consumed, rest) =>
        match rest with
        | c :: cr =>
          if jsLowerChar c == 'я' || jsLowerChar c == 'и' then
            some (consumed ++ [c], cr)
          else none
        | [] => none
      | none => none
  match kwHit with
  | some (consumed, rest) =>
    (matchSpaceCapture rest).map (fun p => (consumed ++ p.1, p.2))
  | none => none

/-- One attempt of `/(?:порт|port)\s+([А-Яа-яёЁA-Za-z\-]+)/i` at a fixed
position. -/
def portPatternAt (cs : List Char) : Option (List Char × List Char) :=
  let kwHit :=
    match matchKeywordCI "порт".data cs with
    | some p => some p
    | none => matchKeywordCI "port".data cs
  match kwHit with
  | some (consumed, rest) =>
    (matchSpaceCapture rest).map (fun p => (consumed ++ p.1, p.2))
  | none => none

/-- Left-to-right regex scan: the match at the earliest position wins. -/
def scanFor (f : List Char → Option (List Char × List Char)) :
    List Char → Option (List Char × List Char)
  | [] => f []
  | c :: t =>
    match f (c :: t) with
    | some r => some r
    | none => scanFor f t

/-- `findLocation` (locationDictionary.ts lines 105-178). -/
def findLocation (text : String) : LocationMatchResult :=
  match indexScan (jsToLower text) with
  | some (k, loc) =>
    { found := true, location := some loc, matchedText := k, confidence := 0.95 }
  | none =>
    match scanFor stationPatternAt text.data with
    | some (whole, captured) =>
      let stationName := jsToLower (String.mk captured)
      match indexGet stationName with
      | some loc =>
        { found := true, location := some loc, matchedText := String.mk whole
          confidence := 0.95 }
      | none =>
        { found := true
          location := some
            { name := String.mk captured, type := "STATION", aliases := []
              region := none, country := "RU" }
          matchedText := String.mk whole, confidence := 0.7 }
    | none =>
      match scanFor portPatternAt text.data with
      | some (whole, captured) =>
        let portName := jsToLower (String.mk captured)
        match indexGet portName with
        | some loc =>
          { found := true, location := some loc, matchedText := String.mk whole
            confidence := 0.95 }
        | none =>
          { found := true
            location := some
              { name := String.mk captured, type := "PORT", aliases := []
                region := none, country := "UNKNOWN" }
            matchedText := String.mk whole, confidence := 0.7 }
      | none => { found := false, location := none, matchedText := "", confidence := 0 }

/-- The character class `\w` of `normalizeLocationName`. -/
def isWordChar (c : Char) : Bool :=
  (65 ≤ c.toNat && c.toNat ≤ 90) || (97 ≤ c.toNat && c.toNat ≤ 122) ||
    (48 ≤ c.toNat && c.toNat ≤ 57) || c == '_'

/-- `normalizeLocationName` (locationDictionary.ts lines 183-191): exact
index lookup of the lower-cased trimmed text, else the trimmed text with a
leading ASCII word character upper-cased (`\w` does not match Cyrillic, so
a Cyrillic initial is left as is). -/
def normalizeLocationName (text : String) : String :=
  let lower := jsTrim (jsToLower text)
  match indexGet lower with
  | some loc => loc.name
  | none =>
    match (jsTrim text).data with
    | c :: rest => if isWordChar c then String.mk (jsUpperChar c :: rest) else jsTrim text
    | [] => ""

/-- `inferLocationType` (locationDictionary.ts lines 196-206). -/
def inferLocationType (text : String) : Option String :=
  let lower := (jsToLower text).data
  if ["ст.", "станци", "station", "жд", "ж/д"].any (fun kw => containsSub kw.data lower) then
    some "STATION"
  else if ["порт", "port", "гавань", "причал"].any (fun kw => containsSub kw.data lower) then
    some "PORT"
  else if ["свх", "склад", "warehouse", "терминал"].any (fun kw => containsSub kw.data lower) then
    some "WAREHOUSE"
  else if ["таможн", "customs"].any (fun kw => containsSub kw.data lower) then
    some "CUSTOMS"
  else if ["город", "city"].any (fun kw => containsSub kw.data lower) then
    some "CITY"
  else none

/-!
## Claim C8
-/

set_option maxRecDepth 10000 in
theorem c8_scan_table :
    (ALL_LOCATIONS.all fun loc =>
      loc.name == "Терминал Ворсино" ||
        ((indexScan (jsToLower loc.name)).map (fun kv => kv.2.name) == some loc.name)) =
      true := by decide

set_option maxRecDepth 10000 in
/-- C8 counterexample: the gazetteer entry `Терминал Ворсино` breaks
idempotent lookup — `findLocation` applied to that canonical name resolves
to the station `Ворсино`, because the station's key was inserted earlier
and substring containment lets it match first. -/
theorem C8_terminal_vorsino_not_idempotent :
    (∃ loc ∈ ALL_LOCATIONS, loc.name = "Терминал Ворсино") ∧
    (findLocation "Терминал Ворсино").found = true ∧
    (findLocation "Терминал Ворсино").location.map KnownLocation.name = some "Ворсино" ∧
    (findLocation "Терминал Ворсино").location.map KnownLocation.name ≠
      some "Терминал Ворсино" := by
  refine ⟨?_, by decide, by decide, by decide⟩
  exact ⟨{ name := "Терминал Ворсино", type := "WAREHOUSE",
           aliases := ["терминал ворсино", "ворсино терминал"],
           region := some "Калужская обл.", country := "RU" }, by decide, rfl⟩

/-- C8 amended: for every gazetteer entry except `Терминал Ворсино`
(whose canonical name contains the earlier-indexed key `ворсино` as a
substring and therefore resolves to the station `Ворсино`), `findLocation`
applied to the canonical name returns `found = true`, a resolved location
carrying that same canonical name, and confidence at least 0.95. -/
theorem C8_canonical_lookup_idempotent (loc : KnownLocation)
    (hmem : loc ∈ ALL_LOCATIONS) (hne : loc.name ≠ "Терминал Ворсино") :
    (findLocation loc.name).found = true ∧
    (findLocation loc.name).location.map KnownLocation.name = some loc.name ∧
    0.95 ≤ (findLocation loc.name).confidence := by
  have htab := c8_scan_table
  rw [List.all_eq_true] at htab
  have hloc := htab loc hmem
  rw [Bool.or_eq_true] at hloc
  rcases hloc with hbad | hgood
  · exact absurd (by simpa using hbad) hne
  have hmap : (indexScan (jsToLower loc.name)).map (fun kv => kv.2.name) = some loc.name := by
    simpa using hgood
  rcases hscan : indexScan (jsToLower loc.name) with - | ⟨k, l⟩
  · rw [hscan] at hmap; simp at hmap
  rw [hscan] at hmap
  simp only [Option.map_some', Option.some.injEq] at hmap
  unfold findLocation
  rw [hscan]
  exact ⟨rfl, by simp [hmap], by norm_num⟩

theorem C8_canonical_lookup_idempotent_witness :
    (findLocation "Гончарово").found = true ∧
    (findLocation "Гончарово").location.map KnownLocation.name = some "Гончарово" ∧
    0.95 ≤ (findLocation "Гончарово").confidence :=
  C8_canonical_lookup_idempotent
    { name := "Гончарово", type := "STATION", aliases := ["гончарово", "goncharovo"],
      region := some "Забайкальский край", country := "RU" }
    (by decide) (by decide)

/-!
## Universal data extraction (universalParser.ts)

The parser produces `ParsedItem` values through three constructors: free
text (`extractDataFromText`), structured rows (`mapTableRow`) and
positional CSV rows (`mapCSVRowWithoutHeaders`).  The regex cascades that
pull individual fields out of free text are abstracted as a record of
extractor functions, and date parsing — which falls back to the host
JavaScript `Date` — as an environment function: every theorem below holds
for all extractor and date-parse outcomes, hence in particular for the
source's regexes.  Structured rows are modelled with string values, the
shape produced by the CSV reader.
-/

/-- `ParsedItem` (universalParser.ts lines 16-34). -/
structure ParsedItem where
  containerNumber : Option String := none
  statusCode : Option String := none
  statusText : Option String := none
  location : Option String := none
  locationType : Option String := none
  distanceToDestination : Option ℚ := none
  eta : Option String := none
  etaUnload : Option String := none
  eventTime : Option String := none
  origin : Option String := none
  destination : Option String := none
  carrierName : Option String := none
  carrierType : Option String := none
  sourceInfo : Option String := none
  operatorComment : Option String := none
  rawSource : String := ""
  extractionConfidence : ℚ := 0
deriving DecidableEq, Repr

/-- The per-field regex extractors of the text branch
(`extractLocation`, `extractDistance`, `extractETA`, `extractUnloadDate`,
`extractStatus`, `extractRoute`, `extractOrigin`, `extractDestination`,
`extractCarrier`, `extractEventTime`, `extractSourceInfo`,
`extractOperatorComment`), abstracted as functions of the text.  `route`
models the `{ origin?; destination? } | undefined` result of
`extractRoute` as an optional pair of optional fields. -/
structure TextExtractors where
  location : String → Option String
  distance : String → Option ℚ
  eta : String → Option String
  unloadDate : String → Option String
  status : String → String × String
  route : String → Option (Option String × Option String)
  origin : String → Option String
  destination : String → Option String
  carrier : String → Option String
  eventTime : String → Option String
  sourceInfo : String → Option String
  operatorComment : String → Option String

/-- `extractDataFromText` (universalParser.ts lines 116-191): base
confidence 0.5, plus 0.1 for a location, 0.1 for a distance, 0.1 for an
ETA, 0.15 for a recognised status, 0.05 each for an origin and a
destination (route first, then the single-field extractors, with the bare
words `порт`/`port` filtered out of a fallback destination), 0.05 for a
container number, capped at 1. -/
def extractDataFromText (E : TextExtractors) (text : String)
    (containerNumber : Option String) : ParsedItem :=
  let location := E.location text
  let distance := E.distance text
  let eta := E.eta text
  let etaUnload := E.unloadDate text
  let status := E.status text
  let route := E.route text
  let origin0 := route.bind (·.1)
  let destination0 := route.bind (·.2)
  let origin := if jsTruthyS origin0 then origin0 else E.origin text
  let destination :=
    if jsTruthyS destination0 then destination0
    else
      match E.destination text with
      | some d => if jsToLower d == "порт" || jsToLower d == "port" then none else some d
      | none => none
  let confidence : ℚ := 0.5
  let confidence := confidence + (if jsTruthyS location then 0.1 else 0)
  let confidence := confidence + (if distance.isSome then 0.1 else 0)
  let confidence := confidence + (if jsTruthyS eta then 0.1 else 0)
  let confidence := confidence + (if status.1 ≠ "UNKNOWN" then 0.15 else 0)
  let confidence := confidence + (if jsTruthyS origin then 0.05 else 0)
  let confidence := confidence + (if jsTruthyS destination then 0.05 else 0)
  let confidence := confidence + (if jsTruthyS containerNumber then 0.05 else 0)
  { containerNumber := containerNumber
    statusCode := some status.1
    statusText := some status.2
    location := location
    distanceToDestination := distance
    eta := eta
    etaUnload := etaUnload
    eventTime := E.eventTime text
    origin := origin
    destination := destination
    carrierName := E.carrier text
    sourceInfo := E.sourceInfo text
    operatorComment := E.operatorComment text
    rawSource := text
    extractionConfidence := min confidence 1 }

/-- Strip one leading and one trailing double quote
(the regex `/^"|"$/g`). -/
def stripEdgeQuotes (cs : List Char) : List Char :=
  let cs1 := match cs with
    | '"' :: t => t
    | l => l
  match cs1.reverse with
  | '"' :: t => t.reverse
  | _ => cs1

/-- Key normalisation of `mapTableRow` (lines 300-306): lower-case, strip
edge quotes, remove underscores, whitespace and hyphens. -/
def normalizeKey (k : String) : String :=
  String.mk ((stripEdgeQuotes (jsToLower k).data).filter
    (fun c => !(c == '_' || isJsWhitespace c || c == '-')))

/-- JS object assignment: a repeated key overwrites the earlier value. -/
def jsObjSet (m : List (String × String)) (k v : String) : List (String × String) :=
  if m.any (fun p => p.1 == k) then m.map (fun p => if p.1 == k then (k, v) else p)
  else m ++ [(k, v)]

/-- `findField` (universalParser.ts lines 989-996). -/
def findField (obj : List (String × String)) (names : List String) : Option String :=
  match names with
  | [] => none
  | n :: rest =>
    match (obj.find? (fun p => p.1 == n)).map (·.2) with
    | some v => some v
    | none => findField obj rest

/-- The status-code alias table of `normalizeStatusCode`
(universalParser.ts lines 1006-1060), in source order. -/
def STATUS_CODE_MAPPING : List (String × String) :=
  [("delivered", "DELIVERED"),
   ("onrail", "ON_RAIL"), ("rail", "ON_RAIL"),
   ("onship", "ON_SHIP"), ("ship", "ON_SHIP"),
   ("inport", "IN_PORT"), ("port", "IN_PORT"),
   ("arrivedport", "ARRIVED_PORT"),
   ("loaded", "LOADED"),
   ("onwarehouse", "ON_WAREHOUSE"), ("warehouse", "ON_WAREHOUSE"),
   ("customs", "CUSTOMS"), ("customscleared", "CUSTOMS_CLEARED"),
   ("intransit", "IN_TRANSIT"), ("transit", "IN_TRANSIT"),
   ("onanchorage", "ON_ANCHORAGE"), ("anchorage", "ON_ANCHORAGE"),
   ("railarrived", "RAIL_ARRIVED"),
   ("onauto", "ON_AUTO"), ("auto", "ON_AUTO"),
   ("unloaded", "UNLOADED"), ("unknown", "UNKNOWN"),
   ("доставлен", "DELIVERED"),
   ("нажд", "ON_RAIL"), ("жд", "ON_RAIL"), ("железнодорожный", "ON_RAIL"),
   ("вморе", "ON_SHIP"), ("море", "ON_SHIP"), ("морем", "ON_SHIP"),
   ("впорту", "IN_PORT"), ("порт", "IN_PORT"),
   ("прибылвпорт", "ARRIVED_PORT"),
   ("погружен", "LOADED"), ("загружен", "LOADED"), ("отгружен", "LOADED"),
   ("свх", "ON_WAREHOUSE"), ("склад", "ON_WAREHOUSE"), ("насвх", "ON_WAREHOUSE"),
   ("таможня", "CUSTOMS"), ("растаможен", "CUSTOMS_CLEARED"),
   ("впути", "IN_TRANSIT"), ("следует", "IN_TRANSIT"),
   ("нарейде", "ON_ANCHORAGE"), ("рейд", "ON_ANCHORAGE"),
   ("настанции", "RAIL_ARRIVED"), ("прибылнастанцию", "RAIL_ARRIVED"),
   ("авто", "ON_AUTO"), ("автодоставка", "ON_AUTO"),
   ("выгружен", "UNLOADED")]

/-- `normalizeStatusCode` (universalParser.ts lines 1001-1074): lower-case
and strip separators, then exact lookup, then a containment pass in either
direction over the same table. -/
def normalizeStatusCode (raw : Option String) : String :=
  match raw with
  | none => "UNKNOWN"
  | some r =>
    if r.isEmpty then "UNKNOWN"
    else
      let lower := String.mk ((jsToLower r).data.filter
        (fun c => !(c == '_' || isJsWhitespace c || c == '-')))
      match (STATUS_CODE_MAPPING.find? (fun p => p.1 == lower)).map (·.2) with
      | some v => v
      | none =>
        match (STATUS_CODE_MAPPING.find? (fun p =>
            containsSub p.1.data lower.data || containsSub lower.data p.1.data)).map (·.2) with
        | some v => v
        | none => "UNKNOWN"

/-- `parseNumber` (universalParser.ts lines 1079-1086), string case: keep
the digits and read them as an integer; no digits parse to `NaN`, which
becomes `undefined`. -/
def parseNumberStr (value : String) : Option ℚ :=
  let digits := value.data.filter isDigitCh
  if digits.isEmpty then none
  else some ((digits.foldl (fun acc c => acc * 10 + (c.toNat - 48)) 0 : Nat) : ℚ)

/-- The shape test `/^[A-Z]{4}\d{6,7}$/`. -/
def matches4L67D (cs : List Char) : Bool :=
  (cs.length == 10 || cs.length == 11) &&
    (cs.take 4).all isUpperLetter && (cs.drop 4).all isDigitCh

/-- Environment behaviour supplied by the host: the `parseDate` helpers
fall back to the built-in JavaScript date reader, and `new Date()` is the
current instant.  `parseRowDate` models `UniversalParser.parseDate`
(ISO-string result), `parseDate` models `DataValidator.validateDate`
(timestamp result) and `now` the current timestamp. -/
structure JsDateEnv where
  parseRowDate : String → Option String
  parseDate : String → Option Int
  now : Int

/-- `mapTableRow` (universalParser.ts lines 298-396) over a string-valued
row: normalise keys, resolve each canonical field against its alias list,
fall back to a shape scan over the values for the identifier, and award
additive confidence bonuses capped at 1. -/
def mapTableRow (env : JsDateEnv) (row : List (String × String)) : ParsedItem :=
  let normalizedRow := row.foldl (fun m p => jsObjSet m (normalizeKey p.1) p.2) []
  let containerNumber0 := findField normalizedRow
    ["containernumber", "container", "ktk", "ктк", "номер", "number", "containerid"]
  let containerNumber :=
    if jsTruthyS containerNumber0 then containerNumber0
    else
      (normalizedRow.map (·.2)).findSome? (fun v =>
        let cleaned := (jsTrim v).data.filter (fun c => !(c == '"' || isJsWhitespace c))
        let cleaned := cleaned.map jsUpperChar
        if matches4L67D cleaned then some (String.mk cleaned) else none)
  let statusCode := normalizeStatusCode (findField normalizedRow
    ["statuscode", "status", "state", "состояние", "статус"])
  let statusText := findField normalizedRow
    ["statustext", "statedescription", "описание", "состояниетекст"]
  let location := findField normalizedRow
    ["location", "currentlocation", "текущееместоположение", "локация",
     "местоположение", "station", "станция"]
  let distanceRaw := findField normalizedRow
    ["distance", "расстояние", "дистанция", "distancetodestination", "км"]
  let distanceToDestination :=
    match distanceRaw with
    | some v => parseNumberStr v
    | none => none
  let etaRaw := findField normalizedRow
    ["eta", "arrivaldate", "датаприбытия", "ориентировочнаядата", "expectedarrival"]
  let eta :=
    match etaRaw with
    | some v => env.parseRowDate v
    | none => none
  let eventTimeRaw := findField normalizedRow
    ["eventtime", "datetime", "date", "дата", "время", "timestamp"]
  let eventTime :=
    match eventTimeRaw with
    | some v => env.parseRowDate v
    | none => none
  let origin := findField normalizedRow
    ["origin", "from", "пунктотправления", "откуда", "отправление"]
  let destination := findField normalizedRow
    ["destination", "to", "пунктназначения", "куда", "назначение"]
  let carrierName := findField normalizedRow
    ["carrier", "carriername", "перевозчик", "оператор", "operator"]
  let carrierType := findField normalizedRow
    ["carriertype", "type", "тип", "типперевозчика", "типктк"]
  let confidence : ℚ := 0.3
  let confidence := confidence + (if jsTruthyS containerNumber then 0.3 else 0)
  let confidence := confidence + (if statusCode ≠ "UNKNOWN" then 0.2 else 0)
  let confidence := confidence + (if jsTruthyS location then 0.1 else 0)
  let confidence := confidence + (if jsTruthyS eta then 0.05 else 0)
  let confidence := confidence + (if distanceToDestination.isSome then 0.05 else 0)
  { containerNumber := containerNumber
    statusCode := some statusCode
    statusText := statusText
    location := location
    distanceToDestination := distanceToDestination
    eta := eta
    eventTime := eventTime
    origin := origin
    destination := destination
    carrierName := carrierName
    carrierType := carrierType
    rawSource := String.intercalate ";" (row.map (fun p => p.1 ++ ":" ++ p.2))
    extractionConfidence := min confidence 1 }

/- The `rawSource` rendering above stands in for the host `JSON.stringify`;
no property below inspects it. -/

/-- `mapCSVRowWithoutHeaders` (universalParser.ts lines 459-502):
positional field guessing over a single data line; confidence 0.6 with an
identifier, 0.3 without. -/
def mapCSVRowWithoutHeaders (values : List String) : ParsedItem :=
  let step := fun (st : Option String × Option String × Option String × Option ℚ) (val : String) =>
    let (containerNumber, statusCode, location, distance) := st
    let cleaned := String.mk (stripEdgeQuotes (jsTrim val).data)
    if !(jsTruthyS containerNumber) && matches4L67D (cleaned.data.map jsUpperChar) then
      (some (String.mk (cleaned.data.map jsUpperChar)), statusCode, location, distance)
    else if !(jsTruthyS statusCode) &&
        ["ON_RAIL", "IN_PORT", "ON_SHIP", "DELIVERED", "LOADED", "ON_WAREHOUSE",
          "UNKNOWN", "IN_TRANSIT"].contains (String.mk (cleaned.data.map jsUpperChar)) then
      (containerNumber, some (String.mk (cleaned.data.map jsUpperChar)), location, distance)
    else if distance.isNone && !cleaned.isEmpty && cleaned.data.all isDigitCh then
      (containerNumber, statusCode, location,
        some ((cleaned.data.foldl (fun acc c => acc * 10 + (c.toNat - 48)) 0 : Nat) : ℚ))
    else if !(jsTruthyS location) && !cleaned.isEmpty &&
        !(!cleaned.isEmpty && cleaned.data.all isDigitCh) then
      (containerNumber, statusCode, some cleaned, distance)
    else st
  let st := values.foldl step (none, none, none, none)
  let (containerNumber, statusCode, location, distance) := st
  { containerNumber := containerNumber
    statusCode := some (normalizeStatusCode statusCode)
    statusText := statusCode
    location := location
    distanceToDestination := distance
    rawSource := String.intercalate ";" values
    extractionConfidence := if jsTruthyS containerNumber then 0.6 else 0.3 }

/-!
## Record validator (dataValidator.ts)

`DataValidator.validate` is decomposed into its numbered steps, each a
function of the data it reads; `validate` chains them in source order and
returns the result together with the post-call `ParsedItem`, making the
in-place mutations of the input observable.  Date parsing and the current
instant come from `JsDateEnv`.
-/

/-- `STATUS_LOCATION_RULES` (dataValidator.ts lines 36-47). -/
def STATUS_LOCATION_RULES : List (String × List String) :=
  [("ON_RAIL", ["STATION"]),
   ("RAIL_ARRIVED", ["STATION"]),
   ("IN_PORT", ["PORT"]),
   ("ARRIVED_PORT", ["PORT"]),
   ("ON_ANCHORAGE", ["PORT"]),
   ("ON_SHIP", []),
   ("ON_WAREHOUSE", ["WAREHOUSE", "CUSTOMS"]),
   ("CUSTOMS", ["WAREHOUSE", "CUSTOMS"]),
   ("CUSTOMS_CLEARED", ["WAREHOUSE", "CUSTOMS"]),
   ("DELIVERED", ["CITY", "WAREHOUSE"])]

/-- The `validStatuses` table of `validateAndMapStatus` (dataValidator.ts
lines 290-323); the keys that still contain an underscore are unreachable
because the input has its separators stripped first, and are kept for
fidelity. -/
def VALID_STATUSES : List (String × String) :=
  [("LOADED", "LOADED"),
   ("INPORT", "IN_PORT"), ("IN_PORT", "IN_PORT"), ("PORT", "IN_PORT"),
   ("ONSHIP", "ON_SHIP"), ("ON_SHIP", "ON_SHIP"), ("SHIP", "ON_SHIP"),
   ("ONRAIL", "ON_RAIL"), ("ON_RAIL", "ON_RAIL"), ("RAIL", "ON_RAIL"),
   ("ONWAREHOUSE", "ON_WAREHOUSE"), ("ON_WAREHOUSE", "ON_WAREHOUSE"),
   ("WAREHOUSE", "ON_WAREHOUSE"),
   ("DELIVERED", "DELIVERED"),
   ("UNKNOWN", "UNKNOWN"),
   ("INTRANSIT", "IN_TRANSIT"), ("IN_TRANSIT", "IN_TRANSIT"), ("TRANSIT", "IN_TRANSIT"),
   ("CUSTOMS", "CUSTOMS"),
   ("ONANCHORAGE", "ON_ANCHORAGE"), ("ON_ANCHORAGE", "ON_ANCHORAGE"),
   ("ANCHORAGE", "ON_ANCHORAGE"),
   ("ARRIVEDPORT", "ARRIVED_PORT"), ("ARRIVED_PORT", "ARRIVED_PORT"),
   ("RAILARRIVED", "RAIL_ARRIVED"), ("RAIL_ARRIVED", "RAIL_ARRIVED"),
   ("CUSTOMSCLEARED", "CUSTOMS_CLEARED"), ("CUSTOMS_CLEARED", "CUSTOMS_CLEARED"),
   ("UNLOADED", "UNLOADED"),
   ("ONAUTO", "ON_AUTO"), ("ON_AUTO", "ON_AUTO"), ("AUTO", "ON_AUTO")]

/-- `validateAndMapStatus` (dataValidator.ts lines 285-326). -/
def validateAndMapStatus (value : Option String) : String :=
  match value with
  | none => "UNKNOWN"
  | some v =>
    if v.isEmpty then "UNKNOWN"
    else
      let upper := String.mk ((v.data.map jsUpperChar).filter
        (fun c => !(c == '_' || isJsWhitespace c || c == '-')))
      match (VALID_STATUSES.find? (fun p => p.1 == upper)).map (·.2) with
      | some code => code
      | none => "UNKNOWN"

/-- `getStatusText` (dataValidator.ts lines 331-351). -/
def getStatusText (code : String) : String :=
  match (([("LOADED", "Загружен"), ("IN_PORT", "В порту"), ("ON_SHIP", "В море"),
    ("ON_RAIL", "В пути по ЖД"), ("ON_WAREHOUSE", "На складе"),
    ("DELIVERED", "Доставлен"), ("UNKNOWN", "Статус неизвестен"),
    ("IN_TRANSIT", "В пути"), ("CUSTOMS", "На таможне"),
    ("ON_ANCHORAGE", "На рейде"), ("ARRIVED_PORT", "Прибыл в порт"),
    ("RAIL_ARRIVED", "Прибыл на станцию"), ("CUSTOMS_CLEARED", "Таможня пройдена"),
    ("UNLOADED", "Выгружен"), ("ON_AUTO", "Автодоставка")] :
      List (String × String)).find? (fun p => p.1 == code)).map (·.2) with
  | some t => t
  | none => "Статус неизвестен"

/-- `Math.round` for the non-negative values the validator rounds. -/
def jsRound (q : ℚ) : Int := Int.floor (q + 1 / 2)

/-- `validateDistance` (dataValidator.ts lines 410-417). -/
def validateDistance (value : Option ℚ) : Option Int :=
  match value with
  | none => none
  | some q => if q < 0 then none else if 20000 < q then none else some (jsRound q)

/-- `replace(/\s+/g, ' ')`: collapse whitespace runs to single spaces. -/
def collapseWs (cs : List Char) : List Char :=
  (cs.foldl
    (fun (acc : List Char × Bool) c =>
      if isJsWhitespace c then (if acc.2 then acc else (acc.1 ++ [' '], true))
      else (acc.1 ++ [c], false))
    ([], false)).1

/-- `sanitizeString` (dataValidator.ts lines 422-430). -/
def sanitizeString (value : Option String) : Option String :=
  match value with
  | none => none
  | some s =>
    if s.isEmpty then none
    else some (String.mk
      (((collapseWs (jsTrim s).data).filter (fun c => !(c == '<' || c == '>'))).take 500))

/-- `NormalizedStatusEvent` (types); dates are carried as parsed
timestamps, `sourceType` is the constant `MANUAL`. -/
structure NormalizedStatusEvent where
  containerNumber : Option String
  statusCode : String
  statusText : String
  location : Option String
  distanceToDestinationKm : Option Int
  eta : Option Int
  eventTime : Int
  sourceType : String
  sourceRaw : String
  origin : Option String
  destination : Option String
  carrierName : Option String
deriving DecidableEq, Repr

/-- The `validationDetails` sub-record (dataValidator.ts lines 26-32). -/
structure ValidationDetails where
  containerValidation : Option ContainerValidationResult
  locationConfidence : ℚ
  statusConfidence : ℚ
  dataCompleteness : ℚ
  consistencyScore : ℚ
deriving DecidableEq, Repr

/-- `ValidationResult` (dataValidator.ts lines 19-33). -/
structure ValidationResult where
  isValid : Bool
  normalized : Option NormalizedStatusEvent
  partialData : Option NormalizedStatusEvent
  errors : List String
  warnings : List String
  confidence : ℚ
  validationDetails : ValidationDetails
deriving DecidableEq, Repr

/-- Step 1 of `validate` (dataValidator.ts lines 66-85): container-number
validation; a valid result overwrites `item.containerNumber` with the
corrected identifier and turns corrections and a failed check digit into
warnings, an invalid or missing identifier becomes a hard error. -/
def containerStage (item : ParsedItem) :
    Option ContainerValidationResult × List String × List String × ParsedItem :=
  match item.containerNumber with
  | some cn =>
    if cn.isEmpty then (none, ["Номер контейнера обязателен"], [], item)
    else
      let cv := validateContainerNumber cn
      if cv.isValid then
        (some cv, [],
          cv.corrections ++
            (if cv.details.checkDigitValid then []
             else ["Контрольная цифра не соответствует ISO 6346"]),
          { item with containerNumber := some cv.containerNumber })
      else (some cv, [cv.error.getD "Invalid container number"], [], item)
  | none => (none, ["Номер контейнера обязателен"], [], item)

/-- Step 2 of `validate` (dataValidator.ts lines 91-117): location
resolution; returns the normalised location, the location confidence, the
warnings, and the item with `locationType` possibly set. -/
def locationStage (item : ParsedItem) : Option String × ℚ × List String × ParsedItem :=
  match item.location with
  | none => (none, 0, [], item)
  | some loc =>
    if loc.isEmpty then (none, 0, [], item)
    else
      let lr := findLocation loc
      match lr.location, lr.found with
      | some l, true =>
        (some l.name, lr.confidence, [],
          if l.type.isEmpty then item else { item with locationType := some l.type })
      | _, _ =>
        let normalized := normalizeLocationName loc
        let warn := ["Локация \"" ++ loc ++ "\" не найдена в справочнике"]
        match inferLocationType loc with
        | some t => (some normalized, 0.5 + 0.2, warn, { item with locationType := some t })
        | none => (some normalized, 0.5, warn, item)

/-- Step 3 of `validate` (dataValidator.ts lines 123-134): status mapping
and status confidence. -/
def statusStage (statusCodeRaw : Option String) : String × ℚ × List String :=
  let statusCode := validateAndMapStatus statusCodeRaw
  if statusCode == "UNKNOWN" then
    if jsTruthyS statusCodeRaw && !(statusCodeRaw == some "UNKNOWN") then
      ("UNKNOWN", 0.3, ["Неизвестный статус: " ++ statusCodeRaw.getD ""])
    else ("UNKNOWN", 0.1, [])
  else (statusCode, 0.95, [])

/-- Step 4a of `validate` (dataValidator.ts lines 141-149): status versus
location-type consistency, a soft warning with multiplier 0.8. -/
def consistencyStage (statusCode : String) (item : ParsedItem) : ℚ × List String :=
  if statusCode ≠ "UNKNOWN" && jsTruthyS item.locationType then
    match (STATUS_LOCATION_RULES.find? (fun p => p.1 == statusCode)).map (·.2) with
    | some allowed =>
      if !allowed.isEmpty && !allowed.contains (item.locationType.getD "") then
        (0.8, ["Тип локации " ++ item.locationType.getD "" ++
          " не соответствует статусу " ++ statusCode])
      else (1, [])
    | none => (1, [])
  else (1, [])

/-- Decimal rendering used in the oversized-distance warning; stands in
for JavaScript number printing. -/
def ratStr (q : ℚ) : String :=
  if q.den = 1 then toString q.num else toString q.num ++ "/" ++ toString q.den

/-- Step 4b of `validate` (dataValidator.ts lines 152-166): distance
checks.  A negative distance is a hard error and is cleared from the item;
a distance over 15000 and a nonzero distance on a DELIVERED status are
soft warnings with multiplier 0.9 each. -/
def distanceStage (statusCode : String) (item : ParsedItem) :
    ℚ × List String × List String × ParsedItem :=
  match item.distanceToDestination with
  | none => (1, [], [], item)
  | some d =>
    if d < 0 then
      (1, ["Расстояние не может быть отрицательным"], [],
        { item with distanceToDestination := none })
    else
      let (m1, w1) :=
        if 15000 < d then
          ((0.9 : ℚ), ["Необычно большое расстояние: " ++ ratStr d ++ " км"])
        else (1, [])
      let (m2, w2) :=
        if statusCode == "DELIVERED" && decide (0 < d) then
          ((0.9 : ℚ), ["Статус \"доставлен\", но расстояние > 0"])
        else (1, [])
      (m1 * m2, [], w1 ++ w2, item)

/-- Step 5 of `validate` (dataValidator.ts lines 172-185): ETA validation
against the environment's date reader and current instant. -/
def etaStage (env : JsDateEnv) (statusCode : String) (item : ParsedItem) :
    Option Int × ℚ × List String :=
  let eta :=
    match item.eta with
    | some s => if s.isEmpty then none else env.parseDate s
    | none => none
  let w1 :=
    if jsTruthyS item.eta && eta.isNone then
      ["Некорректная дата ETA: " ++ item.eta.getD ""]
    else []
  let p :=
    match eta with
    | some t =>
      if statusCode ≠ "DELIVERED" && decide (t < env.now) then
        ((0.9 : ℚ), ["ETA в прошлом"])
      else (1, [])
    | none => (1, [])
  (eta, p.1, w1 ++ p.2)

/-- Step 6 of `validate` (dataValidator.ts lines 193-203): how many of the
six tracked fields are present. -/
def countFilled (item : ParsedItem) (statusCode : String)
    (normalizedLocation : Option String) (eta : Option Int) : Nat :=
  (if jsTruthyS item.containerNumber then 1 else 0) +
  (if statusCode ≠ "UNKNOWN" then 1 else 0) +
  (if jsTruthyS normalizedLocation then 1 else 0) +
  (if eta.isSome then 1 else 0) +
  (if item.distanceToDestination.isSome then 1 else 0) +
  (if jsTruthyS item.origin || jsTruthyS item.destination then 1 else 0)

/-- Step 7 of `validate` (dataValidator.ts lines 209-236): the final
confidence before rounding. -/
def finalConfidence (cv : Option ContainerValidationResult)
    (statusConf locConf comp consist : ℚ) (numErrors numWarnings : Nat) : ℚ :=
  let c0 :=
    match cv with
    | some v =>
      if v.isValid then
        min (v.confidence + (if 0.9 < statusConf then 0.05 else 0) +
          (if 0.9 < locConf then 0.05 else 0) +
          (if 0.5 < comp then 0.03 else 0) +
          (if 1 ≤ consist then 0.02 else 0)) 1
      else statusConf * 0.3 + locConf * 0.3 + comp * 0.4
    | none => statusConf * 0.3 + locConf * 0.3 + comp * 0.4
  let c1 := if numErrors ≠ 0 then c0 * 0.5 else c0
  if 3 < numWarnings then c1 * 0.95 else c1

/-- `Math.round(confidence * 100) / 100` (dataValidator.ts line 271). -/
def round2 (q : ℚ) : ℚ := (jsRound (q * 100) : ℚ) / 100

/-- `DataValidator.validate` (dataValidator.ts lines 54-280), returning the
result together with the item as it stands after the call. -/
def validate (env : JsDateEnv) (item : ParsedItem) : ValidationResult × ParsedItem :=
  let s1 := containerStage item
  let cv := s1.1
  let errC := s1.2.1
  let warnC := s1.2.2.1
  let item1 := s1.2.2.2
  let s2 := locationStage item1
  let normalizedLocation := s2.1
  let locConf := s2.2.1
  let warnL := s2.2.2.1
  let item2 := s2.2.2.2
  let s3 := statusStage item.statusCode
  let statusCode := s3.1
  let statusConf := s3.2.1
  let warnS := s3.2.2
  let s4 := consistencyStage statusCode item2
  let s5 := distanceStage statusCode item2
  let errD := s5.2.1
  let warnD := s5.2.2.1
  let item3 := s5.2.2.2
  let s6 := etaStage env statusCode item3
  let eta := s6.1
  let consistencyScore := 1 * s4.1 * s5.1 * s6.2.1
  let eventTime :=
    (match item.eventTime with
     | some s => if s.isEmpty then none else env.parseDate s
     | none => none).getD env.now
  let errors := errC ++ errD
  let warnings := warnC ++ warnL ++ warnS ++ s4.2 ++ warnD ++ s6.2.2
  let comp := (countFilled item3 statusCode normalizedLocation eta : ℚ) / 6
  let confidence :=
    finalConfidence cv statusConf locConf comp consistencyScore errors.length warnings.length
  let normalized : NormalizedStatusEvent :=
    { containerNumber := item3.containerNumber
      statusCode := statusCode
      statusText :=
        if jsTruthyS item.statusText then item.statusText.getD ""
        else getStatusText statusCode
      location := normalizedLocation
      distanceToDestinationKm := validateDistance item3.distanceToDestination
      eta := eta
      eventTime := eventTime
      sourceType := "MANUAL"
      sourceRaw := item.rawSource
      origin := sanitizeString item.origin
      destination := sanitizeString item.destination
      carrierName := sanitizeString item.carrierName }
  let hasMinimalData :=
    jsTruthyS normalized.containerNumber || normalized.statusCode != "UNKNOWN" ||
      jsTruthyS normalized.location
  let isValid :=
    errors.isEmpty && jsTruthyS normalized.containerNumber && decide ((0.5 : ℚ) ≤ confidence)
  ({ isValid := isValid
     normalized := if isValid then some normalized else none
     partialData := if !isValid && hasMinimalData then some normalized else none
     errors := errors
     warnings := warnings
     confidence := round2 confidence
     validationDetails :=
       { containerValidation := cv
         locationConfidence := locConf
         statusConfidence := statusConf
         dataCompleteness := comp
         consistencyScore := consistencyScore } },
   item3)

/-!
## Stage lemmas for the record validator
-/

/-- A default environment: no date parses, the current instant is 0. -/
def envDefault : JsDateEnv :=
  { parseRowDate := fun _ => none, parseDate := fun _ => none, now := 0 }

theorem containerError_of_invalid (s : String)
    (h : (validateContainerNumber s).isValid = false) :
    (validateContainerNumber s).error =
      some "Неверный формат номера контейнера (должен быть 4 буквы + 6-7 цифр)" := by
  unfold validateContainerNumber at h ⊢
  cases h7 : matches4L7D (fixTypos (cleanContainer s.data)) with
  | true => simp only [h7, if_true] at h; simp [containerBody] at h
  | false =>
    cases h6 : matches4L6D (fixTypos (cleanContainer s.data)) with
    | true =>
      simp only [h7, h6, if_true, Bool.false_eq_true, if_false] at h
      simp [containerBody] at h
    | false => simp [h7, h6, invalidContainerResult]

theorem containerStage_dist (item : ParsedItem) :
    (containerStage item).2.2.2.distanceToDestination = item.distanceToDestination := by
  unfold containerStage
  rcases item.containerNumber with - | cn
  · rfl
  · dsimp only
    split_ifs <;> rfl

theorem locationStage_dist (item : ParsedItem) :
    (locationStage item).2.2.2.distanceToDestination = item.distanceToDestination := by
  unfold locationStage
  rcases item.location with - | loc
  · rfl
  dsimp only
  split_ifs with h1
  · rfl
  rcases (findLocation loc).location with - | l
  · dsimp only
    rcases inferLocationType loc with - | t <;> rfl
  rcases (findLocation loc).found with - | -
  · dsimp only
    rcases inferLocationType loc with - | t <;> rfl
  · dsimp only
    split_ifs <;> rfl

theorem distanceStage_errors_of_nonneg (sc : String) (item : ParsedItem)
    (hd : ∀ d, item.distanceToDestination = some d → 0 ≤ d) :
    (distanceStage sc item).2.1 = [] := by
  unfold distanceStage
  rcases hdist : item.distanceToDestination with - | d
  · rfl
  · have hge := hd d hdist
    dsimp only
    rw [if_neg (not_lt.mpr hge)]

theorem containerStage_errors_cases (item : ParsedItem) :
    (containerStage item).2.1 = [] ∨
    (containerStage item).2.1 = ["Номер контейнера обязателен"] ∨
    (containerStage item).2.1 =
      ["Неверный формат номера контейнера (должен быть 4 буквы + 6-7 цифр)"] := by
  unfold containerStage
  rcases item.containerNumber with - | cn
  · right; left; rfl
  dsimp only
  split_ifs with h1 h2 h3
  · right; left; rfl
  · left; rfl
  · left; rfl
  · right; right
    have hinv : (validateContainerNumber cn).isValid = false :=
      Bool.not_eq_true _ ▸ Bool.eq_false_iff.mpr (fun hv => h2 hv)
    rw [containerError_of_invalid cn hinv]
    rfl

/-!
## Claim C5
-/

/-- C5 counterexample: a negative distance is recorded as a hard error,
not a soft warning — on an item with a perfectly valid identifier and
distance -1, `validate` puts the distance message into `errors` and the
record comes out invalid. -/
theorem C5_negative_distance_is_hard_error :
    "Расстояние не может быть отрицательным" ∈
      (validate envDefault
        { containerNumber := some "MSKU1234565",
          distanceToDestination := some (-1) }).1.errors ∧
    (validate envDefault
        { containerNumber := some "MSKU1234565",
          distanceToDestination := some (-1) }).1.isValid = false := by
  constructor
  · decide
  · decide

/-- C5 amended: the status/location-type mismatch, a past ETA, and an
oversized (over 15000 km) distance are recorded only as warnings — for
every item whose distance is not negative, the errors list can contain
only the two identifier messages (identifier missing, identifier shape
invalid); a negative distance, however, is a hard error. -/
theorem C5_consistency_findings_soft (env : JsDateEnv) (item : ParsedItem)
    (hd : ∀ d, item.distanceToDestination = some d → 0 ≤ d) :
    ∀ e ∈ (validate env item).1.errors,
      e = "Номер контейнера обязателен" ∨
      e = "Неверный формат номера контейнера (должен быть 4 буквы + 6-7 цифр)" := by
  intro e he
  simp only [validate] at he
  have hd2 : ∀ d,
      (locationStage (containerStage item).2.2.2).2.2.2.distanceToDestination = some d →
      0 ≤ d := by
    rw [locationStage_dist, containerStage_dist]
    exact hd
  rw [distanceStage_errors_of_nonneg _ _ hd2, List.append_nil] at he
  rcases containerStage_errors_cases item with hc | hc | hc <;> rw [hc] at he
  · simp at he
  · simp at he
    left; exact he
  · simp at he
    right; exact he

theorem C5_consistency_findings_soft_witness :
    "Неверный формат номера контейнера (должен быть 4 буквы + 6-7 цифр)" =
      "Номер контейнера обязателен" ∨
    "Неверный формат номера контейнера (должен быть 4 буквы + 6-7 цифр)" =
      "Неверный формат номера контейнера (должен быть 4 буквы + 6-7 цифр)" :=
  C5_consistency_findings_soft envDefault { containerNumber := some "BAD" }
    (fun d hd => by simp at hd) _ (by decide)

theorem containerStage_noid (item : ParsedItem)
    (h : jsTruthyS item.containerNumber = false) :
    containerStage item = (none, ["Номер контейнера обязателен"], [], item) := by
  unfold containerStage
  rcases hcn : item.containerNumber with - | cn
  · rfl
  · rw [hcn] at h
    have h2 : cn.isEmpty = true := by simpa [jsTruthyS] using h
    simp [h2]

theorem statusStage_fst (raw : Option String) :
    (statusStage raw).1 = validateAndMapStatus raw := by
  unfold statusStage
  cases hu : validateAndMapStatus raw == "UNKNOWN" with
  | false => simp [hu]
  | true =>
    rw [beq_iff_eq.mp hu]
    simp only [hu, if_true]
    split_ifs <;> rfl

/-- `containerStage` writes at most `containerNumber` back into the
item. -/
theorem containerStage_item (item : ParsedItem) :
    ∃ cn, (containerStage item).2.2.2 = { item with containerNumber := cn } := by
  unfold containerStage
  split
  · dsimp only
    split_ifs <;> exact ⟨_, rfl⟩
  · exact ⟨_, rfl⟩

/-- `locationStage` writes at most `locationType` back into the item. -/
theorem locationStage_item (item : ParsedItem) :
    ∃ lt, (locationStage item).2.2.2 = { item with locationType := lt } := by
  unfold locationStage
  split
  · exact ⟨_, rfl⟩
  rename_i x loc heq
  split_ifs with h1
  · exact ⟨_, rfl⟩
  dsimp only
  rcases hl : (findLocation loc).location with - | l
  · rcases hinf : inferLocationType loc with - | t <;> (try dsimp only) <;> exact ⟨_, rfl⟩
  · rcases hf : (findLocation loc).found with - | -
    · rcases hinf : inferLocationType loc with - | t <;> (try dsimp only) <;> exact ⟨_, rfl⟩
    · dsimp only
      split_ifs <;> exact ⟨_, rfl⟩

/-- `distanceStage` writes at most `distanceToDestination` back into the
item. -/
theorem distanceStage_item (sc : String) (item : ParsedItem) :
    ∃ dd, (distanceStage sc item).2.2.2 = { item with distanceToDestination := dd } := by
  unfold distanceStage
  split
  · exact ⟨_, rfl⟩
  · dsimp only
    split_ifs <;> exact ⟨_, rfl⟩

/-!
## Claim C6
-/

/-- C6 counterexample: an item lacking an identifier but carrying the
status word DELIVERED gets a non-null `partialData` even though the
result's confidence is 0.18, not above 0.3 — `validate` applies no
confidence threshold to partial data (that filter lives in the caller,
`InputProcessor.process`). -/
theorem C6_partialdata_without_confidence_threshold :
    (validate envDefault { statusCode := some "DELIVERED" }).1.partialData.isSome = true ∧
    ¬ ((0.3 : ℚ) < (validate envDefault { statusCode := some "DELIVERED" }).1.confidence) := by
  constructor
  · decide
  · have h1 : (validate envDefault { statusCode := some "DELIVERED" }).1.confidence =
        round2 (finalConfidence none 0.95 0 (((1 : ℕ) : ℚ) / 6) ((1 : ℚ) * 1 * 1 * 1) 1 0) :=
      rfl
    rw [h1]
    norm_num [round2, finalConfidence, jsRound]

/-- C6 amended: `validate` on an item lacking an identifier returns
`isValid = false`, and returns a non-null `partialData` exactly when the
item carries minimal signal — a status that maps to a non-UNKNOWN code or
a location string (whether or not the gazetteer knows it).  `validate`
itself applies no confidence threshold; the `confidence > 0.3` filter is
applied by the caller, `InputProcessor.process`. -/
theorem C6_missing_identifier_partialdata (env : JsDateEnv) (item : ParsedItem)
    (hid : jsTruthyS item.containerNumber = false) :
    (validate env item).1.isValid = false ∧
    ((validate env item).1.partialData.isSome = true ↔
      (validateAndMapStatus item.statusCode ≠ "UNKNOWN" ∨
       jsTruthyS (locationStage item).1 = true)) := by
  have hc := containerStage_noid item hid
  obtain ⟨lt, hlt⟩ := locationStage_item item
  obtain ⟨dd, hdd⟩ := distanceStage_item (statusStage item.statusCode).1
    { item with locationType := lt }
  simp only [validate, hc]
  constructor
  · simp
  · rw [hlt, hdd]
    simp only [statusStage_fst]
    simp [jsTruthyS] at hid
    simp [hid, jsTruthyS, bne_iff_ne]

theorem C6_missing_identifier_partialdata_witness :
    (validate envDefault { statusCode := some "DELIVERED", location := some "Москва" }).1.isValid
      = false ∧
    ((validate envDefault
        { statusCode := some "DELIVERED", location := some "Москва" }).1.partialData.isSome
        = true ↔
      (validateAndMapStatus (some "DELIVERED") ≠ "UNKNOWN" ∨
       jsTruthyS (locationStage
         { statusCode := some "DELIVERED", location := some "Москва" }).1 = true)) :=
  C6_missing_identifier_partialdata envDefault
    { statusCode := some "DELIVERED", location := some "Москва" } (by decide)

/-!
## Claim C7
-/

/-- C7 counterexample: `validate` mutates its input in place — an item
whose identifier arrives as a lower-case string with a space has its
`containerNumber` field overwritten with the corrected identifier. -/
theorem C7_validate_mutates_input :
    (validate envDefault { containerNumber := some "msku 1234567" }).2.containerNumber ≠
      some "msku 1234567" ∧
    (validate envDefault { containerNumber := some "msku 1234567" }).2.containerNumber =
      some "MSKU1234567" := by
  exact ⟨by decide, by decide⟩

/-- C7 amended: `validate` does mutate its input, but only through three
fields — `containerNumber` (overwritten with the corrected identifier when
validation succeeds), `locationType` (set from resolution or inference)
and `distanceToDestination` (cleared when negative); every other field of
the `ParsedItem` is left exactly as it was. -/
theorem C7_validate_mutates_only_three_fields (env : JsDateEnv) (item : ParsedItem) :
    ∃ cn lt dd, (validate env item).2 =
      { item with containerNumber := cn, locationType := lt,
                  distanceToDestination := dd } := by
  obtain ⟨cn, h1⟩ := containerStage_item item
  obtain ⟨lt, h2⟩ := locationStage_item ((containerStage item).2.2.2)
  obtain ⟨dd, h3⟩ := distanceStage_item (statusStage item.statusCode).1
    ((locationStage (containerStage item).2.2.2).2.2.2)
  refine ⟨cn, lt, dd, ?_⟩
  show (validate env item).2 = _
  simp only [validate]
  rw [h3, h2, h1]

/-!
## Claim C10
-/

/-- The shape of a `validate` result: one normalized event, gated by the
validity flag into `normalized` and by validity plus minimal signal into
`partialData`. -/
theorem validate_shape (env : JsDateEnv) (item : ParsedItem) :
    ∃ (n : NormalizedStatusEvent) (b m : Bool),
      (validate env item).1.isValid = b ∧
      (validate env item).1.normalized = (if b then some n else none) ∧
      (validate env item).1.partialData = (if !b && m then some n else none) ∧
      m = (jsTruthyS n.containerNumber || n.statusCode != "UNKNOWN" ||
        jsTruthyS n.location) :=
  ⟨_, _, _, rfl, rfl, rfl, rfl⟩

/-- C10: in every result of `validate`, `normalized` is present exactly
when `isValid` is true; `partialData` is present only when `isValid` is
false and the record carries minimal signal (an identifier, a non-UNKNOWN
status code, or a location); the two fields are never both set. -/
theorem C10_normalized_partial_exclusive (env : JsDateEnv) (item : ParsedItem) :
    ((validate env item).1.normalized.isSome = true ↔
      (validate env item).1.isValid = true) ∧
    (∀ p, (validate env item).1.partialData = some p →
      (validate env item).1.isValid = false ∧
      (jsTruthyS p.containerNumber = true ∨ p.statusCode ≠ "UNKNOWN" ∨
        jsTruthyS p.location = true)) ∧
    ¬((validate env item).1.normalized.isSome = true ∧
      (validate env item).1.partialData.isSome = true) := by
  obtain ⟨n, b, m, hb, hn, hp, hm⟩ := validate_shape env item
  rw [hb, hn, hp]
  cases b with
  | true => simp
  | false =>
    cases hmv : m with
    | false => simp
    | true =>
      rw [hmv] at hm
      refine ⟨by simp, ?_, by simp⟩
      intro p hpe
      simp only [Bool.not_false, Bool.true_and, if_true] at hpe
      injection hpe with hpn
      subst hpn
      refine ⟨rfl, ?_⟩
      have := hm.symm
      simp only [Bool.or_eq_true, bne_iff_ne] at this
      tauto

def partialB : NormalizedStatusEvent :=
  { containerNumber := none, statusCode := "DELIVERED", statusText := "Доставлен",
    location := none, distanceToDestinationKm := none, eta := none, eventTime := 0,
    sourceType := "MANUAL", sourceRaw := "", origin := none, destination := none,
    carrierName := none }

theorem C10_normalized_partial_exclusive_witness :
    (validate envDefault { statusCode := some "DELIVERED" }).1.isValid = false ∧
    (jsTruthyS partialB.containerNumber = true ∨ partialB.statusCode ≠ "UNKNOWN" ∨
      jsTruthyS partialB.location = true) :=
  (C10_normalized_partial_exclusive envDefault { statusCode := some "DELIVERED" }).2.1
    partialB (by decide)

/-!
## Confidence bounds (claim C4)
-/

theorem detectArrayFormat_conf (elems : List JSValue) :
    0 ≤ (detectArrayFormat elems).confidence ∧ (detectArrayFormat elems).confidence ≤ 1 := by
  unfold detectArrayFormat
  split
  · norm_num [unknownFormat]
  · split <;> try split_ifs
    all_goals norm_num

theorem detectObjectFormat_conf (fields : List (String × JSValue)) :
    0 ≤ (detectObjectFormat fields).confidence ∧ (detectObjectFormat fields).confidence ≤ 1 := by
  unfold detectObjectFormat
  split_ifs
  · norm_num
  · split
    · exact detectArrayFormat_conf _
    · split
      · exact detectArrayFormat_conf _
      · split
        · norm_num
        · norm_num

theorem detectStringFormat_conf (p : String → Option JSValue) (s : String) :
    0 ≤ (detectStringFormat p s).confidence ∧ (detectStringFormat p s).confidence ≤ 1 := by
  unfold detectStringFormat
  dsimp only
  split
  · exact detectArrayFormat_conf _
  · exact detectObjectFormat_conf _
  · exact detectObjectFormat_conf _
  · split_ifs <;> norm_num

theorem detectAuto_conf (p : String → Option JSValue) (content : JSValue) :
    0 ≤ (detectAuto p content).confidence ∧ (detectAuto p content).confidence ≤ 1 := by
  unfold detectAuto
  split
  · exact detectStringFormat_conf _ _
  · exact detectObjectFormat_conf _
  · exact detectArrayFormat_conf _
  · norm_num [unknownFormat]

theorem detectWithHint_conf (p : String → Option JSValue) (content : JSValue) (h : Hint) :
    0 ≤ (detectWithHint p content h).confidence ∧ (detectWithHint p content h).confidence ≤ 1 := by
  unfold detectWithHint
  split
  · norm_num
  · split <;> norm_num
  · norm_num
  · split <;> norm_num
  · exact detectAuto_conf _ _

theorem detect_conf (p : String → Option JSValue) (content : JSValue) (hint : Option Hint) :
    0 ≤ (detect p content hint).confidence ∧ (detect p content hint).confidence ≤ 1 := by
  unfold detect
  split
  · exact detectArrayFormat_conf _
  · split
    · exact detectWithHint_conf _ _ _
    · exact detectAuto_conf _ _

theorem ite_bonus_nonneg (p : Prop) [Decidable p] (v : ℚ) (hv : 0 ≤ v) :
    0 ≤ if p then v else 0 := by
  split
  · exact hv
  · exact le_refl 0

theorem extractDataFromText_conf (E : TextExtractors) (text : String) (cn : Option String) :
    0 ≤ (extractDataFromText E text cn).extractionConfidence ∧
    (extractDataFromText E text cn).extractionConfidence ≤ 1 := by
  unfold extractDataFromText
  dsimp only
  refine ⟨le_min ?_ ?_, min_le_right _ _⟩
  · refine add_nonneg (add_nonneg (add_nonneg (add_nonneg (add_nonneg (add_nonneg
      (add_nonneg (by norm_num) ?_) ?_) ?_) ?_) ?_) ?_) ?_ <;>
      exact ite_bonus_nonneg _ _ (by norm_num)
  · norm_num

theorem mapTableRow_conf (env : JsDateEnv) (row : List (String × String)) :
    0 ≤ (mapTableRow env row).extractionConfidence ∧
    (mapTableRow env row).extractionConfidence ≤ 1 := by
  unfold mapTableRow
  refine ⟨le_min ?_ ?_, min_le_right _ _⟩
  · split_ifs <;> norm_num
  · norm_num

theorem mapCSVRowWithoutHeaders_conf (values : List String) :
    0 ≤ (mapCSVRowWithoutHeaders values).extractionConfidence ∧
    (mapCSVRowWithoutHeaders values).extractionConfidence ≤ 1 := by
  unfold mapCSVRowWithoutHeaders
  dsimp only
  split_ifs <;> norm_num

theorem containerBody_conf (cleaned : List Char) (corrections0 : List String) :
    0 ≤ (containerBody cleaned corrections0).confidence ∧
    (containerBody cleaned corrections0).confidence ≤ 1 := by
  unfold containerBody
  dsimp only
  refine ⟨le_min ?_ ?_, min_le_right _ _⟩
  · split_ifs <;> norm_num
  · norm_num

theorem validateContainerNumber_conf (s : String) :
    0 ≤ (validateContainerNumber s).confidence ∧
    (validateContainerNumber s).confidence ≤ 1 := by
  unfold validateContainerNumber
  dsimp only
  split_ifs <;> first
    | exact containerBody_conf _ _
    | norm_num [invalidContainerResult]

theorem findLocation_conf (t : String) :
    0 ≤ (findLocation t).confidence ∧ (findLocation t).confidence ≤ 0.95 := by
  unfold findLocation
  split
  · norm_num
  · dsimp only
    split
    · split <;> norm_num
    · split
      · split <;> norm_num
      · norm_num

theorem locationStage_conf (item : ParsedItem) :
    0 ≤ (locationStage item).2.1 ∧ (locationStage item).2.1 ≤ 0.95 := by
  unfold locationStage
  split
  · norm_num
  rename_i x loc heq
  split_ifs with h1
  · norm_num
  dsimp only
  rcases hl : (findLocation loc).location with - | l
  · rcases hinf : inferLocationType loc with - | t <;> (try dsimp only) <;> norm_num
  · rcases hf : (findLocation loc).found with - | -
    · rcases hinf : inferLocationType loc with - | t <;> (try dsimp only) <;> norm_num
    · have := findLocation_conf loc
      dsimp only
      exact this

theorem statusStage_conf (raw : Option String) :
    0 ≤ (statusStage raw).2.1 ∧ (statusStage raw).2.1 ≤ 0.95 := by
  unfold statusStage
  dsimp only
  split_ifs <;> norm_num

theorem consistencyStage_mult (sc : String) (item : ParsedItem) :
    0 ≤ (consistencyStage sc item).1 ∧ (consistencyStage sc item).1 ≤ 1 := by
  unfold consistencyStage
  split_ifs
  · split
    · split_ifs <;> norm_num
    · norm_num
  · norm_num

theorem distanceStage_mult (sc : String) (item : ParsedItem) :
    0 ≤ (distanceStage sc item).1 ∧ (distanceStage sc item).1 ≤ 1 := by
  unfold distanceStage
  split
  · norm_num
  · dsimp only
    split_ifs <;> norm_num

theorem etaStage_mult (env : JsDateEnv) (sc : String) (item : ParsedItem) :
    0 ≤ (etaStage env sc item).2.1 ∧ (etaStage env sc item).2.1 ≤ 1 := by
  unfold etaStage
  dsimp only
  split
  · split_ifs <;> norm_num
  · norm_num

theorem countFilled_le (item : ParsedItem) (sc : String) (nl : Option String)
    (eta : Option Int) : countFilled item sc nl eta ≤ 6 := by
  unfold countFilled
  split_ifs <;> norm_num

theorem containerStage_cv (item : ParsedItem) (v : ContainerValidationResult)
    (h : (containerStage item).1 = some v) : ∃ s, v = validateContainerNumber s := by
  unfold containerStage at h
  rcases hcn : item.containerNumber with - | cn
  · rw [hcn] at h
    simp at h
  · rw [hcn] at h
    dsimp only at h
    split_ifs at h <;> simp at h <;> exact ⟨cn, h.symm⟩

theorem scale_bound (c0 : ℚ) (ne nw : Nat) (h0 : 0 ≤ c0) (h1 : c0 ≤ 1) :
    0 ≤ (if 3 < nw then (if ne ≠ 0 then c0 * 0.5 else c0) * 0.95
         else (if ne ≠ 0 then c0 * 0.5 else c0)) ∧
    (if 3 < nw then (if ne ≠ 0 then c0 * 0.5 else c0) * 0.95
     else (if ne ≠ 0 then c0 * 0.5 else c0)) ≤ 1 := by
  split_ifs <;> constructor <;> nlinarith

theorem finalConfidence_bound (cv : Option ContainerValidationResult)
    (statusConf locConf comp consist : ℚ) (ne nw : Nat)
    (hcv : ∀ v, cv = some v → 0 ≤ v.confidence ∧ v.confidence ≤ 1)
    (hs0 : 0 ≤ statusConf) (hs1 : statusConf ≤ 0.95)
    (hl0 : 0 ≤ locConf) (hl1 : locConf ≤ 0.95)
    (hc0 : 0 ≤ comp) (hc1 : comp ≤ 1) :
    0 ≤ finalConfidence cv statusConf locConf comp consist ne nw ∧
    finalConfidence cv statusConf locConf comp consist ne nw ≤ 1 := by
  have hform0 : 0 ≤ statusConf * 0.3 + locConf * 0.3 + comp * 0.4 := by positivity
  have hform1 : statusConf * 0.3 + locConf * 0.3 + comp * 0.4 ≤ 1 := by nlinarith
  unfold finalConfidence
  dsimp only
  refine scale_bound _ ne nw ?_ ?_
  · rcases cv with - | v
    · exact hform0
    · dsimp only
      obtain ⟨hv0, hv1⟩ := hcv v rfl
      by_cases hvalid : v.isValid = true
      · rw [if_pos hvalid]
        refine le_min ?_ (by norm_num)
        split_ifs <;> linarith
      · rw [if_neg hvalid]
        exact hform0
  · rcases cv with - | v
    · exact hform1
    · dsimp only
      by_cases hvalid : v.isValid = true
      · rw [if_pos hvalid]
        exact min_le_right _ _
      · rw [if_neg hvalid]
        exact hform1

theorem round2_bound (q : ℚ) (h0 : 0 ≤ q) (h1 : q ≤ 1) :
    0 ≤ round2 q ∧ round2 q ≤ 1 := by
  unfold round2 jsRound
  have hlow : (0 : ℤ) ≤ ⌊q * 100 + 1 / 2⌋ := Int.le_floor.mpr (by push_cast; linarith)
  have hhigh : ⌊q * 100 + 1 / 2⌋ ≤ 100 := by
    have h2 : ⌊(201 / 2 : ℚ)⌋ = 100 := Int.floor_eq_iff.mpr (by norm_num)
    calc ⌊q * 100 + 1 / 2⌋ ≤ ⌊(201 / 2 : ℚ)⌋ := Int.floor_le_floor (by linarith)
    _ = 100 := h2
  constructor
  · have : (0 : ℚ) ≤ (⌊q * 100 + 1 / 2⌋ : ℚ) := by exact_mod_cast hlow
    linarith
  · have : ((⌊q * 100 + 1 / 2⌋ : ℤ) : ℚ) ≤ 100 := by exact_mod_cast hhigh
    linarith

theorem validate_conf (env : JsDateEnv) (item : ParsedItem) :
    0 ≤ (validate env item).1.confidence ∧ (validate env item).1.confidence ≤ 1 := by
  simp only [validate]
  refine round2_bound _ ?_ ?_ <;>
  · have hb := finalConfidence_bound
      (containerStage item).1
      (statusStage item.statusCode).2.1
      (locationStage (containerStage item).2.2.2).2.1
      (((countFilled
          (distanceStage (statusStage item.statusCode).1
            (locationStage (containerStage item).2.2.2).2.2.2).2.2.2
          (statusStage item.statusCode).1
          (locationStage (containerStage item).2.2.2).1
          (etaStage env (statusStage item.statusCode).1
            (distanceStage (statusStage item.statusCode).1
              (locationStage (containerStage item).2.2.2).2.2.2).2.2.2).1 : ℕ) : ℚ) / 6)
      (1 * (consistencyStage (statusStage item.statusCode).1
          (locationStage (containerStage item).2.2.2).2.2.2).1 *
        (distanceStage (statusStage item.statusCode).1
          (locationStage (containerStage item).2.2.2).2.2.2).1 *
        (etaStage env (statusStage item.statusCode).1
          (distanceStage (statusStage item.statusCode).1
            (locationStage (containerStage item).2.2.2).2.2.2).2.2.2).2.1)
      ((containerStage item).2.1 ++
        (distanceStage (statusStage item.statusCode).1
          (locationStage (containerStage item).2.2.2).2.2.2).2.1).length
      ((containerStage item).2.2.1 ++
        (locationStage (containerStage item).2.2.2).2.2.1 ++
        (statusStage item.statusCode).2.2 ++
        (consistencyStage (statusStage item.statusCode).1
          (locationStage (containerStage item).2.2.2).2.2.2).2 ++
        (distanceStage (statusStage item.statusCode).1
          (locationStage (containerStage item).2.2.2).2.2.2).2.2.1 ++
        (etaStage env (statusStage item.statusCode).1
          (distanceStage (statusStage item.statusCode).1
            (locationStage (containerStage item).2.2.2).2.2.2).2.2.2).2.2).length
      ?_ ?_ ?_ ?_ ?_ ?_ ?_
    · first
        | exact hb.1
        | exact hb.2
    · intro v hv
      obtain ⟨s, rfl⟩ := containerStage_cv item v hv
      exact validateContainerNumber_conf s
    · exact (statusStage_conf _).1
    · exact (statusStage_conf _).2
    · exact (locationStage_conf _).1
    · exact (locationStage_conf _).2
    · positivity
    · rw [div_le_one (by norm_num)]
      have := countFilled_le
        (distanceStage (statusStage item.statusCode).1
          (locationStage (containerStage item).2.2.2).2.2.2).2.2.2
        (statusStage item.statusCode).1
        (locationStage (containerStage item).2.2.2).1
        (etaStage env (statusStage item.statusCode).1
          (distanceStage (statusStage item.statusCode).1
            (locationStage (containerStage item).2.2.2).2.2.2).2.2.2).1
      exact_mod_cast this

/-- C4: every confidence produced by the pipeline lies in the unit
interval, for every input — the detected format's confidence (for any
content, hint and JSON-parse outcome), the extraction confidence of every
`ParsedItem` constructor (free text for any extractor outcomes, structured
rows, positional CSV rows), the container validator's confidence, and the
record validator's final confidence. -/
theorem C4_confidences_unit_interval :
    (∀ (p : String → Option JSValue) (content : JSValue) (hint : Option Hint),
      0 ≤ (detect p content hint).confidence ∧ (detect p content hint).confidence ≤ 1) ∧
    (∀ (E : TextExtractors) (text : String) (cn : Option String),
      0 ≤ (extractDataFromText E text cn).extractionConfidence ∧
      (extractDataFromText E text cn).extractionConfidence ≤ 1) ∧
    (∀ (env : JsDateEnv) (row : List (String × String)),
      0 ≤ (mapTableRow env row).extractionConfidence ∧
      (mapTableRow env row).extractionConfidence ≤ 1) ∧
    (∀ values : List String,
      0 ≤ (mapCSVRowWithoutHeaders values).extractionConfidence ∧
      (mapCSVRowWithoutHeaders values).extractionConfidence ≤ 1) ∧
    (∀ s : String,
      0 ≤ (validateContainerNumber s).confidence ∧
      (validateContainerNumber s).confidence ≤ 1) ∧
    (∀ (env : JsDateEnv) (item : ParsedItem),
      0 ≤ (validate env item).1.confidence ∧ (validate env item).1.confidence ≤ 1) :=
  ⟨detect_conf, extractDataFromText_conf, mapTableRow_conf, mapCSVRowWithoutHeaders_conf,
   validateContainerNumber_conf, validate_conf⟩
